import Mathlib

/-!
Verification of the chirp vital-signs pipeline against its specification.

The development shallowly embeds the C sources:
  src/src/dss/vitalsign_dsp.c      (the vital-signs DSP pipeline)
  src/firmware/src/phase_extract.c (the ancillary phase helpers)

Modelling conventions, used throughout:
  * C float values are modelled as exact rationals, carried by the
    unnormalized pair type Rq below (numerator, positive denominator).
    The map Rq.val sends a pair to the rational it denotes; statements
    about numeric values go through Rq.val.  All float additions and
    multiplications of the source are exact rational operations here;
    the source performs them in f32, but every property claimed of them
    is about comparison outcomes and index selections, which any
    consistent valuation supports.  Where a claim depends on the actual
    IEEE-754 single-precision rounding (the phase helpers of claim C8),
    rounding to nearest, ties to even, with a 24-bit significand is
    modelled exactly (flPosQ below).
  * The two FFT kernel invocations (DSPF_sp_fftSPxSP) and atan2sp_i are
    transcendental; their outputs enter the model as oracle inputs: the
    per-range-cell 2-D angle grid for the pre-process stage, and the
    per-cell magnitude-squared spectra plus the reference time series for
    the decision stage.  Everything downstream of those cut points -
    control state, counters, ping-pong offsets, argmax scans, histograms,
    jump limiting, history, output assembly - is embedded from the source.
  * C unsigned arithmetic is modelled on Nat; where the source can wrap
    (uint16 increment, uint16 store of a possibly larger int value) the
    wrap is written explicitly as % 65536.  Array subscripts that the
    source forms by int promotion (peak - 1 on a uint16 local) are
    modelled on Int so that negative indices stay visible.
  * Uninitialized C locals (breathPeakIdx, heartPeakIdx in
    VitalSigns_computeVitalSignProcessing) are modelled as starting at
    zero, and the uninitialized tail decimatedSpectrumProduct[128..255]
    reads as zero; both choices are noted where they matter.
-/

/-! ## Exact rational values -/

/-- An unnormalized rational value num / den.  All constructions in the
model keep den positive. -/
structure Rq where
  num : ℤ
  den : ℕ
deriving DecidableEq

/-- The rational denoted by an Rq pair. -/
def Rq.val (a : Rq) : ℚ := (a.num : ℚ) / (a.den : ℚ)

/-- The zero value. -/
def Rq.zero : Rq := ⟨0, 1⟩

/-- An integer as an Rq value. -/
def Rq.ofInt (n : ℤ) : Rq := ⟨n, 1⟩

/-- A natural number as an Rq value. -/
def Rq.ofNat (n : ℕ) : Rq := ⟨(n : ℤ), 1⟩

/-- Exact addition. -/
def Rq.add (a b : Rq) : Rq := ⟨a.num * b.den + b.num * a.den, a.den * b.den⟩

/-- Exact subtraction. -/
def Rq.sub (a b : Rq) : Rq := ⟨a.num * b.den - b.num * a.den, a.den * b.den⟩

/-- Exact multiplication. -/
def Rq.mul (a b : Rq) : Rq := ⟨a.num * b.num, a.den * b.den⟩

/-- Exact division by a positive natural number. -/
def Rq.divNat (a : Rq) (n : ℕ) : Rq := ⟨a.num, a.den * n⟩

/-- Value-level strict order, by cross multiplication (faithful to the
denoted rationals whenever denominators are positive). -/
def Rq.lt (a b : Rq) : Prop := a.num * (b.den : ℤ) < b.num * (a.den : ℤ)

instance (a b : Rq) : Decidable (Rq.lt a b) := by
  unfold Rq.lt; infer_instance

/-! ## Phase helpers (src/firmware/src/phase_extract.c)

Chirp_Phase_toRadians :  (float)phaseFixed * 3.14159265f / 32768.0f
Chirp_Phase_fromRadians: (int16_t)(phaseRad * 32768.0f / 3.14159265f)

The float literal 3.14159265f denotes the rational 13176795 / 2^22.
Every single float operation of the two helpers is modelled by the exact
operation followed by f32 rounding; the final C cast to int16_t truncates
toward zero. -/

/-- Floor of the base-2 logarithm, with explicit fuel so that it reduces
by structural recursion; correct for arguments below 2 to the fuel. -/
def log2F : ℕ → ℕ → ℕ
  | 0, _ => 0
  | fuel + 1, n => if 2 ≤ n then log2F fuel (n / 2) + 1 else 0

/-- Floor of the base-2 logarithm for the magnitudes of this development
(all far below 2 to the 192). -/
def flog2 (n : ℕ) : ℕ := log2F 192 n

/-- Round the nonnegative ratio a / b to the nearest integer, ties to
even - the IEEE-754 default rounding applied to a scaled significand. -/
def rdivNE (a b : ℕ) : ℕ :=
  let q := a / b
  let r := a % b
  if 2 * r < b then q
  else if b < 2 * r then q + 1
  else if q % 2 = 0 then q else q + 1

/-- Round the positive rational n / d to the nearest f32 value: 24-bit
significand, round to nearest, ties to even.  Exponents are unbounded,
which is faithful on the ranges used here (no overflow, no subnormals).
The binade exponent e is recovered from the integer part of the value
scaled by 2^32; all values rounded in this development exceed 2^(-32). -/
def flPosQ (n d : ℕ) : Rq :=
  if n = 0 ∨ d = 0 then Rq.zero
  else
    let e : ℤ := (flog2 (n * 2 ^ 32 / d) : ℤ) - 32
    let s : ℤ := 23 - e
    if 0 ≤ s then ⟨(rdivNE (n * 2 ^ s.toNat) d : ℤ), 2 ^ s.toNat⟩
    else ⟨((rdivNE n (d * 2 ^ (-s).toNat) * 2 ^ (-s).toNat : ℕ) : ℤ), 1⟩

/-- Round an Rq value to the nearest f32 value; IEEE-754 rounding is
symmetric under negation. -/
def fl32 (q : Rq) : Rq :=
  if 0 ≤ q.num then flPosQ q.num.toNat q.den
  else ⟨-(flPosQ (-q.num).toNat q.den).num, (flPosQ (-q.num).toNat q.den).den⟩

/-- The f32 constant 3.14159265f as an exact value. -/
def piF32 : Rq := ⟨13176795, 4194304⟩

/-- Truncation toward zero of a value, the semantics of the C cast
(int16_t) applied to an in-range float. -/
def truncZ (q : Rq) : ℤ :=
  if 0 ≤ q.num then ((q.num.toNat / q.den : ℕ) : ℤ)
  else -((q.num.natAbs / q.den : ℕ) : ℤ)

/-- Exact division by a value with positive numerator (only used with the
constant piF32). -/
def Rq.divPos (a b : Rq) : Rq := ⟨a.num * (b.den : ℤ), a.den * b.num.toNat⟩

/-- Model of Chirp_Phase_toRadians: multiply by 3.14159265f, then divide
by 32768.0f, each f32 operation rounding its exact result. -/
def toRadiansM (p : ℤ) : Rq :=
  fl32 (Rq.mul (fl32 (Rq.mul (Rq.ofInt p) piF32)) ⟨1, 32768⟩)

/-- Model of Chirp_Phase_fromRadians: multiply by 32768.0f, divide by
3.14159265f, each f32 operation rounding, then cast to int16_t
(truncation toward zero). -/
def fromRadiansM (x : Rq) : ℤ :=
  truncZ (fl32 (Rq.divPos (fl32 (Rq.mul x ⟨32768, 1⟩)) piF32))

/-- The composition fromRadians (toRadians p) of the two phase helpers. -/
def phaseRoundTrip (p : ℤ) : ℤ := fromRadiansM (toRadiansM p)

/-! ## Pipeline constants (src/src/common/vitalsign_common.h) -/

/-- VS_TOTAL_FRAME. -/
def VS_TOTAL_FRAME : ℕ := 128

/-- VS_REFRESH_RATE. -/
def VS_REFRESH_RATE : ℕ := 32

/-- VS_NUM_RANGE_SEL_BIN. -/
def VS_NUM_RANGE_SEL_BIN : ℕ := 5

/-- VS_NUM_ANGLE_SEL_BIN. -/
def VS_NUM_ANGLE_SEL_BIN : ℕ := 9

/-- VS_NUM_ANGLE_FFT. -/
def VS_NUM_ANGLE_FFT : ℕ := 16

/-- VS_NUM_VIRTUAL_CHANNEL. -/
def VS_NUM_VIRTUAL_CHANNEL : ℕ := 12

/-- VS_PHASE_FFT_SIZE. -/
def VS_PHASE_FFT_SIZE : ℕ := 512

/-- VS_HEART_INDEX_START. -/
def VS_HEART_INDEX_START : ℕ := 68

/-- VS_HEART_INDEX_END. -/
def VS_HEART_INDEX_END : ℕ := 128

/-- VS_BREATH_INDEX_START. -/
def VS_BREATH_INDEX_START : ℕ := 3

/-- VS_BREATH_INDEX_END. -/
def VS_BREATH_INDEX_END : ℕ := 50

/-- VS_HEART_RATE_DECISION_THRESH. -/
def VS_HEART_RATE_DECISION_THRESH : ℕ := 3

/-- VS_HEART_RATE_JUMP_LIMIT. -/
def VS_HEART_RATE_JUMP_LIMIT : ℕ := 12

/-- VS_MASK_LOOP_NO. -/
def VS_MASK_LOOP_NO : ℕ := 7

/-- VS_TARGET_PERSIST_FRAMES. -/
def VS_TARGET_PERSIST_FRAMES : ℕ := 50

/-- VS_SPECTRUM_MULTIPLICATION_FACTOR = 0.882 as an exact value. -/
def kBpm : Rq := ⟨441, 500⟩

/-- VITALSIGNS_EOK. -/
def VITALSIGNS_EOK : ℤ := 0

/-- VITALSIGNS_EINVAL. -/
def VITALSIGNS_EINVAL : ℤ := -1

/-- VITALSIGNS_ENOTINIT. -/
def VITALSIGNS_ENOTINIT : ℤ := -2

/-! ## Data model -/

/-- The published result record (VitalSigns_Output). -/
structure VsOutput where
  id : ℕ
  rangeBin : ℕ
  heartRate : Rq
  breathingRate : Rq
  breathingDeviation : Rq
  valid : ℕ
deriving DecidableEq

/-- The all-zero result record written by init and reset. -/
def zeroOutput : VsOutput :=
  { id := 0, rangeBin := 0, heartRate := Rq.zero, breathingRate := Rq.zero,
    breathingDeviation := Rq.zero, valid := 0 }

/-- The pipeline state: the fields of VitalSigns_State together with the
configuration bit the pipeline reads (gVsConfig.enabled), the antenna
geometry field updated per frame, the module-scope buffers, and the
published output record.  Buffers hold complex values as pairs. -/
structure VsState where
  inited : Bool
  cfgEnabled : Bool
  vsDataCount : ℕ
  vsLoop : ℕ
  vsRangeBin : ℕ
  indicateNoTarget : Bool
  lastFramePeakIdxI : ℕ
  lastFramePeakIdxJ : ℕ
  targetLostFrames : ℕ
  heartHistIndex : ℕ
  breathHistIndex : ℕ
  prevHeartPeak0 : ℕ
  prevHeartPeak1 : ℕ
  prevHeartPeak2 : ℕ
  prevHeartPeak3 : ℕ
  vsMeanCntOffset0 : ℕ
  vsMeanCntOffset1 : ℕ
  antNumRangeBins : ℕ
  dataPerFrame : ℕ → Rq × Rq
  meanBuf : ℕ → Rq × Rq
  angleFftBuf : ℕ → Rq × Rq
  angleFftMagSum : ℕ → Rq

  output : VsOutput

/-- Oracle input to one decision-stage execution: for every angle cell
a < 9 and range cell r < 5, the magnitude-squared 512-point spectrum of
that cells phase-difference series (the value the source derives through
atan2sp_i, unwrapping and DSPF_sp_fftSPxSP), and the reference series of
cell (5, 3) used for the deviation. -/
structure ComputeIn where
  spectrum : ℕ → ℕ → ℤ → Rq
  devSeries : ℕ → Rq

/-- Input to one processFrame call: the radar cube (none models a NULL
pointer; a cube is a flat array of Q15 complex samples), the geometry
arguments, and the oracle values consumed inside the call.  angleGrid r
is the 16 x 16 2-D angle FFT output for range cell r of this frame (the
value the source computes from the DC-removed extract with two FFT
passes), laid out row-major as cell j * 16 + i. -/
structure FrameIn where
  cube : Option (ℕ → ℤ × ℤ)
  numRangeBins : ℕ
  numDopplerChirps : ℕ
  numVirtualAnt : ℕ
  targetRangeBin : ℕ
  angleGrid : ℕ → ℕ → Rq × Rq
  compute : ComputeIn

/-! ## Decision stage (VitalSigns_computeVitalSignProcessing) -/

/-- Pointwise update of a Nat-indexed array of indices. -/
def updArr (f : ℕ → ℕ) (i v : ℕ) : ℕ → ℕ :=
  fun j => if j = i then v else f j

/-- The 3-tap sum s k + s (k+1) + s (k-1) the argmax scans compare (the
source adds the three floats; addition is exact here). -/
def tap3 (s : ℤ → Rq) (k : ℕ) : Rq :=
  Rq.add (Rq.add (s (k : ℤ)) (s ((k : ℤ) + 1))) (s ((k : ℤ) - 1))

/-- The 5-tap sum used by the heart histogram vote. -/
def tap5 (s : ℤ → Rq) (k : ℕ) : Rq :=
  Rq.add (Rq.add (Rq.add (Rq.add
    (s (k : ℤ)) (s ((k : ℤ) + 1))) (s ((k : ℤ) - 1)))
    (s ((k : ℤ) - 2))) (s ((k : ℤ) + 2))

/-- The loop of an argmax scan, carrying the best index and best value;
strict improvement over the best value so far updates both. -/
def scanGo (f : ℕ → Rq) : List ℕ → ℕ → Rq → ℕ
  | [], bi, _ => bi
  | k :: t, bi, best =>
    if Rq.lt best (f k) then scanGo f t k (f k) else scanGo f t bi best

/-- The 3-tap argmax scan of the source (peakValue starts at 0, the index
variable keeps its incoming value p0 when no sum exceeds 0, strict
improvement only), over k in [lo, lo+n). -/
def scan3 (s : ℤ → Rq) (lo n : ℕ) (p0 : ℕ) : ℕ :=
  scanGo (tap3 s) (List.range' lo n) p0 Rq.zero

/-- The 5-tap argmax scan used for the heart histogram vote. -/
def scan5 (s : ℤ → Rq) (lo n : ℕ) (p0 : ℕ) : ℕ :=
  scanGo (tap5 s) (List.range' lo n) p0 Rq.zero

/-- Zero a peak and its two neighbors: the source writes
spectrum[peak] = spectrum[peak + 1] = spectrum[peak - 1] = 0, where
peak - 1 is computed with int promotion (so peak = 0 would address
index -1). -/
def zero3 (d : ℤ → Rq) (h : ℕ) : ℤ → Rq :=
  fun i => if i = (h : ℤ) ∨ i = (h : ℤ) + 1 ∨ i = (h : ℤ) - 1 then Rq.zero else d i

/-- The three store indices of one zero3 write, as the source computes
them (int promotion of the uint16 peak). -/
def zero3Writes (h : ℕ) : List ℤ := [(h : ℤ), (h : ℤ) + 1, (h : ℤ) - 1]

/-- The locals threaded through the per-cell loop of the decision stage:
the two peak-index variables (uninitialized in C, modelled as starting at
0), the four per-cell index arrays (C initializers set them to 0), and
the two accumulated spectra (memset to 0 on entry). -/
structure CellAcc where
  breathPeakIdx : ℕ
  heartPeakIdx : ℕ
  breathRateArray : ℕ → ℕ
  heartRateArray : ℕ → ℕ
  heartRateSub1Array : ℕ → ℕ
  heartRateSub2Array : ℕ → ℕ
  breathStorage : ℤ → Rq
  heartStorage : ℤ → Rq

/-- The initial locals of one decision-stage execution. -/
def cellAccInit : CellAcc :=
  { breathPeakIdx := 0, heartPeakIdx := 0,
    breathRateArray := fun _ => 0, heartRateArray := fun _ => 0,
    heartRateSub1Array := fun _ => 0, heartRateSub2Array := fun _ => 0,
    breathStorage := fun _ => Rq.zero, heartStorage := fun _ => Rq.zero }

/-- One iteration of the per-cell loop (angle cell a, range cell r):
breath 3-tap scan over [3, 50); harmonic product spectrum
d0 k = S (2 k) * S k for k < 128 (the tail beyond 128 is uninitialized in
C and modelled as 0); accumulation of S into the breath storage over
[3, 50) and of d0 into the heart storage over [68, 128); then three heart
3-tap scans over [68, 128), each followed by zeroing the found peak and
its neighbors; the four per-cell arrays record the found indices at slot
r + a * 5. -/
def vsCellStep (inp : ComputeIn) (a r : ℕ) (acc : CellAcc) : CellAcc :=
  let S : ℤ → Rq := fun i => inp.spectrum a r i
  let b1 := scan3 S VS_BREATH_INDEX_START
    (VS_BREATH_INDEX_END - VS_BREATH_INDEX_START) acc.breathPeakIdx
  let d0 : ℤ → Rq := fun i =>
    if 0 ≤ i ∧ i < 128 then Rq.mul (S (2 * i)) (S i) else Rq.zero
  let bSt : ℤ → Rq := fun i =>
    if 3 ≤ i ∧ i < 50 then Rq.add (acc.breathStorage i) (S i)
    else acc.breathStorage i
  let hSt : ℤ → Rq := fun i =>
    if 68 ≤ i ∧ i < 128 then Rq.add (acc.heartStorage i) (d0 i)
    else acc.heartStorage i
  let h1 := scan3 d0 VS_HEART_INDEX_START
    (VS_HEART_INDEX_END - VS_HEART_INDEX_START) acc.heartPeakIdx
  let d1 := zero3 d0 h1
  let h2 := scan3 d1 VS_HEART_INDEX_START
    (VS_HEART_INDEX_END - VS_HEART_INDEX_START) h1
  let d2 := zero3 d1 h2
  let h3 := scan3 d2 VS_HEART_INDEX_START
    (VS_HEART_INDEX_END - VS_HEART_INDEX_START) h2
  { breathPeakIdx := b1, heartPeakIdx := h3,
    breathRateArray := updArr acc.breathRateArray (r + a * 5) b1,
    heartRateArray := updArr acc.heartRateArray (r + a * 5) h1,
    heartRateSub1Array := updArr acc.heartRateSub1Array (r + a * 5) h2,
    heartRateSub2Array := updArr acc.heartRateSub2Array (r + a * 5) h3,
    breathStorage := bSt, heartStorage := hSt }

/-- The full per-cell loop: angle cells outer, range cells inner. -/
def vsCellLoop (inp : ComputeIn) : CellAcc :=
  (List.range VS_NUM_ANGLE_SEL_BIN).foldl (fun acc a =>
    (List.range VS_NUM_RANGE_SEL_BIN).foldl (fun acc2 r =>
      vsCellStep inp a r acc2) acc) cellAccInit

/-- Number of cells c < 45 whose recorded index equals k (the histogram
the source builds by incrementing a float array). -/
def count45 (arr : ℕ → ℕ) (k : ℤ) : ℕ :=
  ((List.range 45).filter (fun c => ((arr c : ℤ) = k : Bool))).length

/-- Breathing decision: 3-tap scan of the accumulated breath storage over
[3, 50), then a 3-tap scan of the histogram of the 45 per-cell breathing
indices over the same band, the index variable carried through both. -/
def vsBreathDecision (acc : CellAcc) : ℕ :=
  let pA := scan3 acc.breathStorage VS_BREATH_INDEX_START
    (VS_BREATH_INDEX_END - VS_BREATH_INDEX_START) acc.breathPeakIdx
  let histB : ℤ → Rq := fun k => Rq.ofNat (count45 acc.breathRateArray k)
  scan3 histB VS_BREATH_INDEX_START
    (VS_BREATH_INDEX_END - VS_BREATH_INDEX_START) pA

/-- Zero the recorded heart indices of the edge range cells (slots
5 k and 5 k + 4 of every angle row), keeping the center three votes. -/
def zeroEdgeCells (arr : ℕ → ℕ) : ℕ → ℕ :=
  fun c => if c % 5 = 0 ∨ c % 5 = 4 then 0 else arr c

/-- Heart histogram vote: after discarding edge range cells, build the
histogram over the primary and first secondary per-cell heart indices,
and take the 5-tap argmax over [68, 128), the index variable carried in
from the per-cell loop.  (The source also zeroes the second secondary
array, but never reads it again.) -/
def vsHeartHist (acc : CellAcc) : ℕ :=
  let hArr := zeroEdgeCells acc.heartRateArray
  let s1Arr := zeroEdgeCells acc.heartRateSub1Array
  let histH : ℤ → Rq := fun k => Rq.ofNat (count45 hArr k + count45 s1Arr k)
  scan5 histH VS_HEART_INDEX_START
    (VS_HEART_INDEX_END - VS_HEART_INDEX_START) acc.heartPeakIdx

/-- Extract the five strongest peaks of the accumulated heart storage:
five rounds of 3-tap argmax over [68, 128) followed by zeroing the found
peak and neighbors; returns the peak list and the final value of the
index variable (carried in from the histogram vote). -/
def vsPresentPeaks (storage : ℤ → Rq) (p0 : ℕ) : List ℕ × ℕ :=
  (List.range 5).foldl (fun (st : (ℤ → Rq) × (List ℕ × ℕ)) _ =>
    let pk := scan3 st.1 VS_HEART_INDEX_START
      (VS_HEART_INDEX_END - VS_HEART_INDEX_START) st.2.2
    (zero3 st.1 pk, (st.2.1 ++ [pk], pk))) (storage, ([], p0)) |>.2

/-- Absolute difference computed the way the source does, by branching on
order before subtracting (uint16 values). -/
def distN (a b : ℕ) : ℕ := if b < a then a - b else b - a

/-- Candidate selection: compare the five present peaks against the
oldest history slot; the peak of smallest difference wins if that
difference is below VS_HEART_RATE_DECISION_THRESH, else the histogram
index wins.  The minimum search starts from compareValue = 100 and
compareIndex = 0 with strict improvement. -/
def vsCandidate (pks : List ℕ) (prev3 histIdx : ℕ) : ℕ :=
  let sel := (List.range 5).foldl (fun (acc : ℕ × ℕ) i =>
    let d := distN (pks.getD i 0) prev3
    if d < acc.1 then (d, i) else acc) (100, 0)
  if sel.1 < VS_HEART_RATE_DECISION_THRESH then pks.getD sel.2 0 else histIdx

/-- The jump limiter: once vsLoop exceeds VS_MASK_LOOP_NO, a candidate
further than VS_HEART_RATE_JUMP_LIMIT from the newest history slot is
clamped to prev0 + 12 (stored into a uint16, hence the explicit wrap) or
prev0 - 12 (the guard forces prev0 > 12 there, so no underflow). -/
def vsJumpLimit (cand prev0 vsLoop : ℕ) : ℕ :=
  if VS_HEART_RATE_JUMP_LIMIT < distN cand prev0 ∧ VS_MASK_LOOP_NO < vsLoop then
    if prev0 < cand then (prev0 + VS_HEART_RATE_JUMP_LIMIT) % 65536
    else prev0 - VS_HEART_RATE_JUMP_LIMIT
  else cand

/-- History update: shift once vsLoop exceeds 4; clear at vsLoop = 0. -/
def vsHistoryUpdate (vsLoop hFinal p0 p1 p2 p3 : ℕ) : ℕ × ℕ × ℕ × ℕ :=
  if 4 < vsLoop then (hFinal, p0, p1, p2)
  else if vsLoop = 0 then (0, 0, 0, 0)
  else (p0, p1, p2, p3)

/-- VitalSigns_computeDeviation: the variance E[x^2] - E[x]^2 of n
samples (the NULL check of the source cannot fire in this model; the
n < 1 branch returns -1 as the source does). -/
def vsComputeDeviation (a : ℕ → Rq) (n : ℕ) : Rq :=
  if n < 1 then ⟨-1, 1⟩
  else
    let sumX := (List.range n).foldl (fun s i => Rq.add s (a i)) Rq.zero
    let sumX2 := (List.range n).foldl
      (fun s i => Rq.add s (Rq.mul (a i) (a i))) Rq.zero
    Rq.sub (Rq.divNat sumX2 n) (Rq.mul (Rq.divNat sumX n) (Rq.divNat sumX n))

/-- Output assembly (the tail of the decision stage): write deviation,
rates, range bin and id; then, if no target is indicated, zero every
field and the valid flag; otherwise valid reflects the warm-up gate, and
during warm-up (vsLoop < VS_MASK_LOOP_NO) both rates are zeroed. -/
def vsAssembleOutput (st : VsState) (bFinal hFinal : ℕ) (dev : Rq) : VsOutput :=
  if st.indicateNoTarget then zeroOutput
  else
    { id := 0, rangeBin := st.vsRangeBin,
      heartRate := if st.vsLoop < VS_MASK_LOOP_NO then Rq.zero
        else Rq.mul (Rq.ofNat hFinal) kBpm,
      breathingRate := if st.vsLoop < VS_MASK_LOOP_NO then Rq.zero
        else Rq.mul (Rq.ofNat bFinal) kBpm,
      breathingDeviation := dev,
      valid := if VS_MASK_LOOP_NO ≤ st.vsLoop then 1 else 0 }

/-- The full decision stage VitalSigns_computeVitalSignProcessing: the
per-cell loop, the breathing and heart votes, the correlation with the
oldest history slot, the jump limiter, the history update, the deviation
of samples 59..98 of the reference cell series, and the output
assembly. -/
def vsComputeVitalSign (st : VsState) (inp : ComputeIn) : VsState :=
  let acc := vsCellLoop inp
  let bFinal := vsBreathDecision acc
  let hh := vsHeartHist acc
  let pks := vsPresentPeaks acc.heartStorage hh
  let cand := vsCandidate pks.1 st.prevHeartPeak3 hh
  let hFinal := vsJumpLimit cand st.prevHeartPeak0 st.vsLoop
  let hist := vsHistoryUpdate st.vsLoop hFinal
    st.prevHeartPeak0 st.prevHeartPeak1 st.prevHeartPeak2 st.prevHeartPeak3
  let dev := vsComputeDeviation (fun i => inp.devSeries (59 + i)) 40
  { st with
    breathHistIndex := bFinal,
    heartHistIndex := hh,
    prevHeartPeak0 := hist.1, prevHeartPeak1 := hist.2.1,
    prevHeartPeak2 := hist.2.2.1, prevHeartPeak3 := hist.2.2.2,
    output := vsAssembleOutput st bFinal hFinal dev }

/-! ## Pre-process stage (VitalSigns_extractRadarData, VitalSigns_runPreProcess) -/

/-- Pointwise update of an indexed buffer. -/
def updIdx {α : Type} (f : ℕ → α) (i : ℕ) (v : α) : ℕ → α :=
  fun j => if j = i then v else f j

/-- Complex addition on value pairs. -/
def cAdd (a b : Rq × Rq) : Rq × Rq := (Rq.add a.1 b.1, Rq.add a.2 b.2)

/-- Complex subtraction on value pairs. -/
def cSub (a b : Rq × Rq) : Rq × Rq := (Rq.sub a.1 b.1, Rq.sub a.2 b.2)

/-- Magnitude squared re * re + im * im. -/
def magSq (a : Rq × Rq) : Rq := Rq.add (Rq.mul a.1 a.1) (Rq.mul a.2 a.2)

/-- VitalSigns_extractRadarData: window start clamped to
[0, numRangeBins - 5] (the upper clamp subtracts on uint16, hence the
explicit wrap when numRangeBins < 5), then the R_SEL x numVirtualAnt
window of Q15 samples converted verbatim into the per-frame buffer,
sequentially indexed. -/
def vsExtractRadarData (st : VsState) (cube : ℕ → ℤ × ℤ)
    (bins numVA tBin : ℕ) : VsState :=
  let startBin0 := if tBin < 2 then 0 else tBin - 2
  let startBin := if bins < startBin0 + VS_NUM_RANGE_SEL_BIN
    then (bins + 65536 - VS_NUM_RANGE_SEL_BIN) % 65536 else startBin0
  let nva := min numVA VS_NUM_VIRTUAL_CHANNEL
  let buf := ((List.range VS_NUM_RANGE_SEL_BIN).foldl
    (fun (p : ℕ × (ℕ → Rq × Rq)) binIdx =>
      (List.range nva).foldl (fun (p2 : ℕ × (ℕ → Rq × Rq)) antIdx =>
        let v := cube ((startBin + binIdx) + antIdx * bins)
        (p2.1 + 1, updIdx p2.2 p2.1 (Rq.ofInt v.1, Rq.ofInt v.2)))
        p) (0, st.dataPerFrame)).2
  { st with dataPerFrame := buf }

/-- The 3-element wraparound neighborhood of the source, written there as
a switch over 0 and VS_NUM_ANGLE_FFT - 1. -/
def vsPeakTriple (i : ℕ) : ℕ × ℕ × ℕ :=
  if i = 0 then (VS_NUM_ANGLE_FFT - 1, 0, 1)
  else if i = VS_NUM_ANGLE_FFT - 1 then
    (VS_NUM_ANGLE_FFT - 2, VS_NUM_ANGLE_FFT - 1, 0)
  else (i - 1, i, i + 1)

/-- The nine complex values the source saves for one range cell, in its
store order: rows J1, J2, J3 and columns I1, I2, I3 of the 2-D spectrum
grid (laid out row-major as j * 16 + i), row-major. -/
def storedNine (g : ℕ → Rq × Rq) (pki pkj : ℕ) : List (Rq × Rq) :=
  let ti := vsPeakTriple pki
  let tj := vsPeakTriple pkj
  [ g (tj.1 * VS_NUM_ANGLE_FFT + ti.1),
    g (tj.1 * VS_NUM_ANGLE_FFT + ti.2.1),
    g (tj.1 * VS_NUM_ANGLE_FFT + ti.2.2),
    g (tj.2.1 * VS_NUM_ANGLE_FFT + ti.1),
    g (tj.2.1 * VS_NUM_ANGLE_FFT + ti.2.1),
    g (tj.2.1 * VS_NUM_ANGLE_FFT + ti.2.2),
    g (tj.2.2 * VS_NUM_ANGLE_FFT + ti.1),
    g (tj.2.2 * VS_NUM_ANGLE_FFT + ti.2.1),
    g (tj.2.2 * VS_NUM_ANGLE_FFT + ti.2.2) ]

/-- Neighbor index of the toroidal wrap as the spec words it: for
k in {0, 1, 2}, the row or column x - 1 + k taken modulo VS_NUM_ANGLE_FFT
(written x + 15 + k to stay in Nat; equal for x < 16). -/
def specTrip (x k : ℕ) : ℕ := (x + (VS_NUM_ANGLE_FFT - 1) + k) % VS_NUM_ANGLE_FFT

/-- Modelled from the spec: the nine cells at rows pkj - 1, pkj, pkj + 1
and columns pki - 1, pki, pki + 1, each modulo VS_NUM_ANGLE_FFT, in
row-major order. -/
def specNine (g : ℕ → Rq × Rq) (pki pkj : ℕ) : List (Rq × Rq) :=
  [ g (specTrip pkj 0 * VS_NUM_ANGLE_FFT + specTrip pki 0),
    g (specTrip pkj 0 * VS_NUM_ANGLE_FFT + specTrip pki 1),
    g (specTrip pkj 0 * VS_NUM_ANGLE_FFT + specTrip pki 2),
    g (specTrip pkj 1 * VS_NUM_ANGLE_FFT + specTrip pki 0),
    g (specTrip pkj 1 * VS_NUM_ANGLE_FFT + specTrip pki 1),
    g (specTrip pkj 1 * VS_NUM_ANGLE_FFT + specTrip pki 2),
    g (specTrip pkj 2 * VS_NUM_ANGLE_FFT + specTrip pki 0),
    g (specTrip pkj 2 * VS_NUM_ANGLE_FFT + specTrip pki 1),
    g (specTrip pkj 2 * VS_NUM_ANGLE_FFT + specTrip pki 2) ]

/-- VitalSigns_runPreProcess: accumulate the fresh extract into the
accumulating mean half (offset 0), subtract the frozen half (offset 1)
from the extract, accumulate the magnitude-squared angle spectrum of
every range cell (the 2-D FFT itself is the oracle grid), save the nine
neighborhood values per range cell into the cycle buffer at slot
vsDataCount * 45 + r * 9 + m, refresh the peak index at the cycle end
(and once at the short startup cycle), and at the cycle end freeze the
mean, clear the other half and swap the ping-pong offsets. -/
def vsRunPreProcess (st : VsState) (grid : ℕ → ℕ → Rq × Rq)
    (vsDataCount : ℕ) : VsState :=
  let mean1 := (List.range (VS_NUM_RANGE_SEL_BIN * VS_NUM_VIRTUAL_CHANNEL)).foldl
    (fun f m => updIdx f (st.vsMeanCntOffset0 + m)
      (cAdd (f (st.vsMeanCntOffset0 + m)) (st.dataPerFrame m))) st.meanBuf
  let data1 := (List.range (VS_NUM_RANGE_SEL_BIN * VS_NUM_VIRTUAL_CHANNEL)).foldl
    (fun f m => updIdx f m
      (cSub (f m) (mean1 (m + st.vsMeanCntOffset1)))) st.dataPerFrame
  let mag1 := (List.range VS_NUM_RANGE_SEL_BIN).foldl (fun f r =>
    (List.range (VS_NUM_ANGLE_FFT * VS_NUM_ANGLE_FFT)).foldl (fun f2 cell =>
      updIdx f2 cell (Rq.add (f2 cell) (magSq (grid r cell)))) f)
    st.angleFftMagSum
  let buf1 := (List.range VS_NUM_RANGE_SEL_BIN).foldl (fun f r =>
    (List.range VS_NUM_ANGLE_SEL_BIN).foldl (fun f2 m =>
      updIdx f2 (vsDataCount * (VS_NUM_RANGE_SEL_BIN * VS_NUM_ANGLE_SEL_BIN)
          + r * VS_NUM_ANGLE_SEL_BIN + m)
        ((storedNine (grid r) st.lastFramePeakIdxI st.lastFramePeakIdxJ).getD
          m (Rq.zero, Rq.zero))) f) st.angleFftBuf
  let runPeak := vsDataCount = VS_TOTAL_FRAME - 1 ∨
    (st.vsLoop = 0 ∧ vsDataCount = 1)
  let peak := if runPeak then
      ((List.range VS_NUM_ANGLE_FFT).foldl (fun acc azim =>
        (List.range VS_NUM_ANGLE_FFT).foldl (fun (a2 : Rq × ℕ × ℕ) elev =>
          if Rq.lt a2.1 (mag1 (azim * VS_NUM_ANGLE_FFT + elev)) then
            (mag1 (azim * VS_NUM_ANGLE_FFT + elev), elev, azim)
          else a2) acc)
        (Rq.zero, st.lastFramePeakIdxI, st.lastFramePeakIdxJ)).2
    else (st.lastFramePeakIdxI, st.lastFramePeakIdxJ)
  let mag2 := if runPeak then (fun _ => Rq.zero) else mag1
  let endOfCycle := vsDataCount = VS_TOTAL_FRAME - 1
  let mean2 := if endOfCycle then
      let scaled := (List.range (VS_NUM_RANGE_SEL_BIN * VS_NUM_VIRTUAL_CHANNEL)).foldl
        (fun f m => updIdx f (m + st.vsMeanCntOffset0)
          (Rq.divNat (f (m + st.vsMeanCntOffset0)).1 VS_TOTAL_FRAME,
           Rq.divNat (f (m + st.vsMeanCntOffset0)).2 VS_TOTAL_FRAME)) mean1
      fun i => if st.vsMeanCntOffset1 ≤ i ∧
          i < st.vsMeanCntOffset1 + VS_NUM_RANGE_SEL_BIN * VS_NUM_VIRTUAL_CHANNEL
        then (Rq.zero, Rq.zero) else scaled i
    else mean1
  let offs := if endOfCycle then
      if st.vsMeanCntOffset0 = 0 then
        (VS_NUM_RANGE_SEL_BIN * VS_NUM_VIRTUAL_CHANNEL, 0)
      else (0, VS_NUM_RANGE_SEL_BIN * VS_NUM_VIRTUAL_CHANNEL)
    else (st.vsMeanCntOffset0, st.vsMeanCntOffset1)
  { st with
    dataPerFrame := data1, meanBuf := mean2,
    angleFftBuf := buf1, angleFftMagSum := mag2,
    lastFramePeakIdxI := peak.1, lastFramePeakIdxJ := peak.2,
    vsMeanCntOffset0 := offs.1, vsMeanCntOffset1 := offs.2 }

/-! ## Public API (VitalSigns_processFrame and the control surface) -/

/-- The per-frame data work of processFrame: update the geometry record
and the active range bin, then extract and pre-process while the frame
counter is below VS_TOTAL_FRAME, incrementing the counter. -/
def vsStageData (st : VsState) (inp : FrameIn) (cube : ℕ → ℤ × ℤ) : VsState :=
  let st1 := { st with antNumRangeBins := inp.numRangeBins,
                       vsRangeBin := inp.targetRangeBin }
  if st1.vsDataCount < VS_TOTAL_FRAME then
    let sa := vsExtractRadarData st1 cube inp.numRangeBins
      inp.numVirtualAnt inp.targetRangeBin
    let sb := vsRunPreProcess sa inp.angleGrid sa.vsDataCount
    { sb with vsDataCount := sb.vsDataCount + 1 }
  else st1

/-- The frame-counter wrap of processFrame. -/
def vsStageWrap (st : VsState) : VsState :=
  if VS_TOTAL_FRAME ≤ st.vsDataCount then { st with vsDataCount := 0 } else st

/-- The refresh-cadence gate of processFrame: run the decision stage and
advance the cycle counter when the frame counter is a multiple of
VS_REFRESH_RATE. -/
def vsStageCompute (st : VsState) (inp : FrameIn) : VsState :=
  if st.vsDataCount % VS_REFRESH_RATE = 0 then
    let sc := vsComputeVitalSign st inp.compute
    { sc with vsLoop := sc.vsLoop + 1 }
  else st

/-- The body of a successful processFrame call: geometry and range-bin
update with extract and pre-process while the frame counter is below
VS_TOTAL_FRAME (incrementing it), the counter wrap, and the
refresh-cadence decision stage. -/
def vsFrameBody (st : VsState) (inp : FrameIn) (cube : ℕ → ℤ × ℤ) : VsState :=
  vsStageCompute (vsStageWrap (vsStageData st inp cube)) inp

/-- VitalSigns_processFrame: the three early-return guards, then the
per-frame body above. -/
def vsProcessFrame (st : VsState) (inp : FrameIn) : ℤ × VsState :=
  if st.inited = false then (VITALSIGNS_ENOTINIT, st)
  else
    match inp.cube with
    | none => (VITALSIGNS_EINVAL, st)
    | some cube =>
      if st.cfgEnabled = false then (VITALSIGNS_EOK, st)
      else (VITALSIGNS_EOK, vsFrameBody st inp cube)

/-- VitalSigns_handleTargetLoss: on a lost frame, increment the uint16
counter (explicit wrap) and set the no-target flag when it reaches
VS_TARGET_PERSIST_FRAMES, returning 0 (stop); otherwise return 1
(continue).  On a found frame, clear both. -/
def vsHandleTargetLoss (st : VsState) (targetLost : Bool) : ℤ × VsState :=
  if targetLost then
    let c := (st.targetLostFrames + 1) % 65536
    if VS_TARGET_PERSIST_FRAMES ≤ c then
      (0, { st with targetLostFrames := c, indicateNoTarget := true })
    else (1, { st with targetLostFrames := c })
  else (1, { st with targetLostFrames := 0, indicateNoTarget := false })

/-- VitalSigns_reset: clear counters, flags, peak indices, history and
the histogram indices, restore the ping-pong offsets, clear the cycle
buffer, the mean buffer and the magnitude accumulator, and zero the
output record.  Configuration and the initialized flag are kept. -/
def vsReset (st : VsState) : VsState :=
  { st with
    vsDataCount := 0, vsLoop := 0, indicateNoTarget := false,
    lastFramePeakIdxI := 0, lastFramePeakIdxJ := 0,
    targetLostFrames := 0, heartHistIndex := 0, breathHistIndex := 0,
    prevHeartPeak0 := 0, prevHeartPeak1 := 0,
    prevHeartPeak2 := 0, prevHeartPeak3 := 0,
    vsMeanCntOffset0 := 0,
    vsMeanCntOffset1 := VS_NUM_RANGE_SEL_BIN * VS_NUM_VIRTUAL_CHANNEL,
    angleFftBuf := fun _ => (Rq.zero, Rq.zero),
    meanBuf := fun _ => (Rq.zero, Rq.zero),
    angleFftMagSum := fun _ => Rq.zero,
    output := zeroOutput }

/-- The state VitalSigns_init establishes: zeroed state and buffers, the
ping-pong offsets at 0 and R_SEL * R_VA, geometry defaults, the supplied
configuration, and the initialized flag set. -/
def vsInitState (enabled : Bool) : VsState :=
  { inited := true, cfgEnabled := enabled,
    vsDataCount := 0, vsLoop := 0, vsRangeBin := 0,
    indicateNoTarget := false,
    lastFramePeakIdxI := 0, lastFramePeakIdxJ := 0,
    targetLostFrames := 0, heartHistIndex := 0, breathHistIndex := 0,
    prevHeartPeak0 := 0, prevHeartPeak1 := 0,
    prevHeartPeak2 := 0, prevHeartPeak3 := 0,
    vsMeanCntOffset0 := 0,
    vsMeanCntOffset1 := VS_NUM_RANGE_SEL_BIN * VS_NUM_VIRTUAL_CHANNEL,
    antNumRangeBins := 256,
    dataPerFrame := fun _ => (Rq.zero, Rq.zero),
    meanBuf := fun _ => (Rq.zero, Rq.zero),
    angleFftBuf := fun _ => (Rq.zero, Rq.zero),
    angleFftMagSum := fun _ => Rq.zero,
    output := zeroOutput }

/-- One external event: a processFrame call or a handleTargetLoss call. -/
inductive VsEvent
  | frame (inp : FrameIn)
  | loss (lost : Bool)

/-- Run a sequence of events against the pipeline. -/
def vsRun (st : VsState) (evs : List VsEvent) : VsState :=
  evs.foldl (fun s e =>
    match e with
    | VsEvent.frame inp => (vsProcessFrame s inp).2
    | VsEvent.loss b => (vsHandleTargetLoss s b).2) st

/-! ## Concrete inputs used by witnesses and counterexamples -/

/-- Decision-stage oracle with all-zero spectra and series (what a
frame stream of all-zero radar cubes produces from a fresh init). -/
def zeroComputeIn : ComputeIn :=
  { spectrum := fun _ _ _ => Rq.zero, devSeries := fun _ => Rq.zero }

/-- Decision-stage oracle with every spectrum bin equal to one. -/
def onesComputeIn : ComputeIn :=
  { spectrum := fun _ _ _ => ⟨1, 1⟩, devSeries := fun _ => Rq.zero }

/-- An all-zero radar cube. -/
def zeroCube : ℕ → ℤ × ℤ := fun _ => (0, 0)

/-- A frame input with a valid cube and the given decision-stage oracle. -/
def mkFrame (c : ComputeIn) : FrameIn :=
  { cube := some zeroCube, numRangeBins := 256, numDopplerChirps := 16,
    numVirtualAnt := 12, targetRangeBin := 8,
    angleGrid := fun _ _ => (Rq.zero, Rq.zero), compute := c }

/-- A frame input whose cube has exactly VS_NUM_RANGE_SEL_BIN range
bins (a legal cube the spec says should be rejected). -/
def frameBins5 : FrameIn := { mkFrame zeroComputeIn with numRangeBins := 5 }

/-- A state in warm-up age 8 (vsLoop = 8), target present. -/
def stWarm8 : VsState := { vsInitState true with vsLoop := 8 }

/-- A post-warm-up state with the no-target flag set and a heart history
at index 69 (the state a run reaches after seven cycles of a steady
heart tone at index 69 followed by fifty lost-target frames). -/
def stNoTarget : VsState :=
  { vsInitState true with
    vsLoop := 8
    indicateNoTarget := true
    prevHeartPeak0 := 69
    prevHeartPeak1 := 69
    prevHeartPeak2 := 69
    prevHeartPeak3 := 69 }

/-- A state on which init has not run. -/
def stNotInited : VsState := { vsInitState true with inited := false }

/-- Iterated lost-target calls. -/
def lossN : ℕ → VsState → VsState
  | 0, st => st
  | n + 1, st => lossN n (vsHandleTargetLoss st true).2

/-- The ping-pong invariant: the two offsets are 0 and R_SEL * R_VA in
one of the two orders. -/
def offInv (st : VsState) : Prop :=
  (st.vsMeanCntOffset0 = 0 ∧
   st.vsMeanCntOffset1 = VS_NUM_RANGE_SEL_BIN * VS_NUM_VIRTUAL_CHANNEL) ∨
  (st.vsMeanCntOffset0 = VS_NUM_RANGE_SEL_BIN * VS_NUM_VIRTUAL_CHANNEL ∧
   st.vsMeanCntOffset1 = 0)

/-- The lost-frame-counter invariant every reachable state keeps: either
the counter is still below the persistence threshold, or the no-target
flag is already set. -/
def lossInv (st : VsState) : Prop :=
  st.targetLostFrames < VS_TARGET_PERSIST_FRAMES ∨ st.indicateNoTarget = true

/-- The band invariant of claim C4: every history slot is below 128, the
published breathing rate is an in-band or zero index scaled by K_BPM,
and the published heart rate is an index below 128 scaled by K_BPM. -/
def rateInv (st : VsState) : Prop :=
  st.prevHeartPeak0 < 128 ∧ st.prevHeartPeak1 < 128 ∧
  st.prevHeartPeak2 < 128 ∧ st.prevHeartPeak3 < 128 ∧
  (∃ b : ℕ, (b = 0 ∨ (3 ≤ b ∧ b < 50)) ∧
    st.output.breathingRate.val = (b : ℚ) * (441 / 500)) ∧
  (∃ h : ℕ, h < 128 ∧ st.output.heartRate.val = (h : ℚ) * (441 / 500))

/-- A steady-tone oracle: every range cell sees spectrum 1 at bins 70
and 140 (a heart tone at index 70 and its alias), 0 elsewhere. -/
def toneS : ℤ → Rq := fun k => if k = 70 ∨ k = 140 then ⟨1, 1⟩ else Rq.zero

/-- The decision-stage oracle of the steady tone. -/
def toneComputeIn : ComputeIn :=
  { spectrum := fun _ _ => toneS, devSeries := fun _ => Rq.zero }

/-- The harmonic product spectrum the tone produces: 1 at bin 70. -/
def deltaH : ℤ → Rq := fun i => if i = 70 then ⟨1, 1⟩ else Rq.zero

/-- The per-cell locals after m cells of the steady tone. -/
def toneAccN (m : ℕ) : CellAcc :=
  { breathPeakIdx := 0,
    heartPeakIdx := if m = 0 then 0 else 69,
    breathRateArray := fun _ => 0,
    heartRateArray := fun c => if c < m then 69 else 0,
    heartRateSub1Array := fun c => if c < m then 69 else 0,
    heartRateSub2Array := fun c => if c < m then 69 else 0,
    breathStorage := fun _ => Rq.zero,
    heartStorage := fun i => if i = (70 : ℤ) then ⟨(m : ℤ), 1⟩ else Rq.zero }

/-- The event sequence of the C4 counterexample: eight refresh cycles of
the steady tone, then one of silence. -/
def c4Events : List VsEvent :=
  List.replicate 256 (VsEvent.frame (mkFrame toneComputeIn)) ++
  List.replicate 32 (VsEvent.frame (mkFrame zeroComputeIn))

/-! ## Value lemmas -/

theorem Rq.val_ofNat (n : ℕ) : (Rq.ofNat n).val = (n : ℚ) := by
  simp [Rq.val, Rq.ofNat]

theorem Rq.val_zero : Rq.zero.val = 0 := by simp [Rq.val, Rq.zero]

theorem Rq.val_mul (a b : Rq) : (Rq.mul a b).val = a.val * b.val := by
  simp [Rq.val, Rq.mul, div_mul_div_comm]

theorem kBpm_val : kBpm.val = 441 / 500 := by
  simp [Rq.val, kBpm]

/-! ## Scan lemmas -/

theorem scanGo_const (f : ℕ → Rq) (l : List ℕ) :
    ∀ (bi : ℕ) (best : Rq), (∀ k ∈ l, ¬ Rq.lt best (f k)) →
    scanGo f l bi best = bi := by
  induction l with
  | nil => intro bi best _; rfl
  | cons k t ih =>
    intro bi best h
    unfold scanGo
    rw [if_neg (h k (List.mem_cons_self k t))]
    exact ih bi best fun x hx => h x (List.mem_cons_of_mem k hx)

theorem scanGo_mem (f : ℕ → Rq) (l : List ℕ) :
    ∀ (bi : ℕ) (best : Rq),
    scanGo f l bi best = bi ∨ scanGo f l bi best ∈ l := by
  induction l with
  | nil => intro bi best; exact Or.inl rfl
  | cons k t ih =>
    intro bi best
    unfold scanGo
    by_cases h : Rq.lt best (f k)
    · rw [if_pos h]
      rcases ih k (f k) with h2 | h2
      · exact Or.inr (by rw [h2]; exact List.mem_cons_self k t)
      · exact Or.inr (List.mem_cons_of_mem k h2)
    · rw [if_neg h]
      rcases ih bi best with h2 | h2
      · exact Or.inl h2
      · exact Or.inr (List.mem_cons_of_mem k h2)

theorem scanGo_posMem (f : ℕ → Rq) (S : ℕ → Prop) (l : List ℕ)
    (hS : ∀ k ∈ l, S k) :
    ∀ (bi : ℕ) (best : Rq), (∃ k ∈ l, Rq.lt best (f k)) →
    S (scanGo f l bi best) := by
  induction l with
  | nil => intro bi best h; rcases h with ⟨k, hk, _⟩; cases hk
  | cons k t ih =>
    intro bi best h
    unfold scanGo
    by_cases hu : Rq.lt best (f k)
    · rw [if_pos hu]
      rcases scanGo_mem f t k (f k) with h2 | h2
      · rw [h2]; exact hS k (List.mem_cons_self k t)
      · exact hS _ (List.mem_cons_of_mem k h2)
    · rw [if_neg hu]
      rcases h with ⟨k0, hk0, hlt⟩
      rcases List.mem_cons.mp hk0 with rfl | hk0t
      · exact absurd hlt hu
      · exact ih (fun x hx => hS x (List.mem_cons_of_mem k hx)) bi best
          ⟨k0, hk0t, hlt⟩

theorem scan3_mem (s : ℤ → Rq) (lo n p0 : ℕ) :
    scan3 s lo n p0 = p0 ∨
    (lo ≤ scan3 s lo n p0 ∧ scan3 s lo n p0 < lo + n) := by
  rcases scanGo_mem (tap3 s) (List.range' lo n) p0 Rq.zero with h | h
  · exact Or.inl h
  · exact Or.inr (List.mem_range'_1.mp h)

theorem scan5_mem (s : ℤ → Rq) (lo n p0 : ℕ) :
    scan5 s lo n p0 = p0 ∨
    (lo ≤ scan5 s lo n p0 ∧ scan5 s lo n p0 < lo + n) := by
  rcases scanGo_mem (tap5 s) (List.range' lo n) p0 Rq.zero with h | h
  · exact Or.inl h
  · exact Or.inr (List.mem_range'_1.mp h)

theorem scan3_posMem (s : ℤ → Rq) (lo n p0 : ℕ)
    (h : ∃ k, lo ≤ k ∧ k < lo + n ∧ Rq.lt Rq.zero (tap3 s k)) :
    lo ≤ scan3 s lo n p0 ∧ scan3 s lo n p0 < lo + n := by
  rcases h with ⟨k, h1, h2, h3⟩
  exact scanGo_posMem (tap3 s) (fun x => lo ≤ x ∧ x < lo + n)
    (List.range' lo n) (fun x hx => List.mem_range'_1.mp hx) p0 Rq.zero
    ⟨k, List.mem_range'_1.mpr ⟨h1, h2⟩, h3⟩

/-! ## Output assembly lemmas -/

theorem assemble_warmup (st : VsState) (b h : ℕ) (d : Rq)
    (hloop : st.vsLoop < VS_MASK_LOOP_NO) :
    (vsAssembleOutput st b h d).valid = 0 ∧
    (vsAssembleOutput st b h d).breathingRate = Rq.zero ∧
    (vsAssembleOutput st b h d).heartRate = Rq.zero := by
  unfold vsAssembleOutput
  by_cases hf : st.indicateNoTarget
  · simp [hf, zeroOutput]
  · simp [hf, hloop, Nat.not_le.mpr hloop]

/-- C1.  The decision stage during warm-up: whenever it executes with
vsLoop below VS_MASK_LOOP_NO = 7, the published result carries
valid = 0 and zero breathing and heart rates, for every state and every
oracle input (hence along every frame-processing run from a fresh
init). -/
theorem claim_C1_warmup (st : VsState) (inp : ComputeIn)
    (hloop : st.vsLoop < VS_MASK_LOOP_NO) :
    (vsComputeVitalSign st inp).output.valid = 0 ∧
    (vsComputeVitalSign st inp).output.breathingRate = Rq.zero ∧
    (vsComputeVitalSign st inp).output.heartRate = Rq.zero := by
  exact assemble_warmup st _ _ _ hloop

/-- Witness for C1 at a fresh init state and the all-zero oracle. -/
theorem claim_C1_warmup_witness :
    (vsInitState true).vsLoop < VS_MASK_LOOP_NO ∧
    ((vsComputeVitalSign (vsInitState true) zeroComputeIn).output.valid = 0 ∧
     (vsComputeVitalSign (vsInitState true) zeroComputeIn).output.breathingRate = Rq.zero ∧
     (vsComputeVitalSign (vsInitState true) zeroComputeIn).output.heartRate = Rq.zero) :=
  ⟨by decide, claim_C1_warmup (vsInitState true) zeroComputeIn (by decide)⟩

/-! ## Error paths of processFrame -/

/-- C6 (amended).  processFrame returns NotInitialized when the pipeline
is not initialized, InvalidArg exactly when the cube pointer is null, and
Ok in every other case - including when processing is disabled, where it
returns without touching any state.  The number of range bins of the
cube is not validated. -/
theorem claim_C6_errors (st : VsState) (inp : FrameIn) :
    (vsProcessFrame st inp).1 =
      (if st.inited = false then VITALSIGNS_ENOTINIT
       else if inp.cube.isNone then VITALSIGNS_EINVAL
       else VITALSIGNS_EOK) ∧
    (st.cfgEnabled = false → (vsProcessFrame st inp).2 = st) := by
  unfold vsProcessFrame
  rcases hc : inp.cube with _ | c <;> by_cases hi : st.inited = false <;>
    by_cases he : st.cfgEnabled = false <;>
      simp [hi, he, hc, VITALSIGNS_EOK, VITALSIGNS_EINVAL, VITALSIGNS_ENOTINIT]

/-- C6 counterexample.  A legal call on an initialized, enabled pipeline
with a non-null cube of exactly VS_NUM_RANGE_SEL_BIN = 5 range bins
returns Ok, not InvalidArg, refuting the claim that bins at most R_SEL
yield InvalidArg. -/
theorem claim_C6_counterexample :
    frameBins5.numRangeBins ≤ VS_NUM_RANGE_SEL_BIN ∧
    frameBins5.cube ≠ none ∧
    (vsInitState true).inited = true ∧
    (vsProcessFrame (vsInitState true) frameBins5).1 ≠ VITALSIGNS_EINVAL := by
  refine ⟨by decide, ?_, by decide, ?_⟩
  · simp [frameBins5, mkFrame]
  · have h : (vsProcessFrame (vsInitState true) frameBins5).1 = VITALSIGNS_EOK := rfl
    rw [h]
    decide

set_option linter.unnecessarySeqFocus false in
/-- C9.  Every early return of processFrame (not initialized, null cube,
or processing disabled) leaves the whole pipeline state - counters,
range bin, peak indices, history, all buffers and the published result
record - exactly as it was. -/
theorem claim_C9_early_return_pure (st : VsState) (inp : FrameIn)
    (h : st.inited = false ∨ inp.cube = none ∨ st.cfgEnabled = false) :
    (vsProcessFrame st inp).2 = st := by
  unfold vsProcessFrame
  rcases hc : inp.cube with _ | c <;> by_cases hi : st.inited = false <;>
    by_cases he : st.cfgEnabled = false <;> simp [hi, he, hc] <;>
      rcases h with h | h | h <;> simp_all

/-- Witness for C9 on a not-initialized state. -/
theorem claim_C9_early_return_pure_witness :
    (vsProcessFrame stNotInited (mkFrame zeroComputeIn)).2 = stNotInited :=
  claim_C9_early_return_pure stNotInited (mkFrame zeroComputeIn)
    (Or.inl (by decide))

/-! ## Peak scan bounds (decision-stage heart scans) -/

/-- C10 (amended).  Whenever some 3-tap sum in the heart band is
positive, the 3-tap argmax scan over [H_LO, H_HI) = [68, 128) returns an
index inside the band, and the three subsequent zeroing writes at
peak - 1, peak, peak + 1 stay inside [0, VS_PHASE_FFT_SIZE / 2) = [0,
256).  (Without a positive sum the scan keeps the prior content of the
index variable, and the writes can leave the array - see the
counterexample.) -/
theorem claim_C10_scan_bounds (d : ℤ → Rq) (p0 : ℕ)
    (hpos : ∃ k, VS_HEART_INDEX_START ≤ k ∧ k < VS_HEART_INDEX_END ∧
      Rq.lt Rq.zero (tap3 d k)) :
    VS_HEART_INDEX_START ≤
      scan3 d VS_HEART_INDEX_START (VS_HEART_INDEX_END - VS_HEART_INDEX_START) p0 ∧
    scan3 d VS_HEART_INDEX_START (VS_HEART_INDEX_END - VS_HEART_INDEX_START) p0 <
      VS_HEART_INDEX_END ∧
    ∀ i ∈ zero3Writes
      (scan3 d VS_HEART_INDEX_START (VS_HEART_INDEX_END - VS_HEART_INDEX_START) p0),
      0 ≤ i ∧ i < (VS_PHASE_FFT_SIZE / 2 : ℕ) := by
  simp only [VS_HEART_INDEX_START, VS_HEART_INDEX_END, VS_PHASE_FFT_SIZE]
    at hpos ⊢
  have h := scan3_posMem d 68 (128 - 68) p0 (by
    rcases hpos with ⟨k, h1, h2, h3⟩
    exact ⟨k, h1, by omega, h3⟩)
  rcases h with ⟨h1, h2⟩
  refine ⟨h1, by omega, ?_⟩
  intro i hi
  simp only [zero3Writes, List.mem_cons, List.not_mem_nil, or_false] at hi
  rcases hi with rfl | rfl | rfl <;> omega

/-- Witness for C10 on a spectrum with a single positive bin at 70. -/
theorem claim_C10_scan_bounds_witness :
    (∃ k, VS_HEART_INDEX_START ≤ k ∧ k < VS_HEART_INDEX_END ∧
      Rq.lt Rq.zero (tap3 (fun i => if i = 70 then ⟨1, 1⟩ else Rq.zero) k)) ∧
    VS_HEART_INDEX_START ≤
      scan3 (fun i => if i = 70 then ⟨1, 1⟩ else Rq.zero) VS_HEART_INDEX_START
        (VS_HEART_INDEX_END - VS_HEART_INDEX_START) 0 ∧
    scan3 (fun i => if i = 70 then ⟨1, 1⟩ else Rq.zero) VS_HEART_INDEX_START
        (VS_HEART_INDEX_END - VS_HEART_INDEX_START) 0 < VS_HEART_INDEX_END := by
  have hpos : ∃ k, VS_HEART_INDEX_START ≤ k ∧ k < VS_HEART_INDEX_END ∧
      Rq.lt Rq.zero (tap3 (fun i => if i = 70 then ⟨1, 1⟩ else Rq.zero) k) :=
    ⟨69, by decide, by decide, by decide⟩
  have h := claim_C10_scan_bounds (fun i => if i = 70 then ⟨1, 1⟩ else Rq.zero)
    0 hpos
  exact ⟨hpos, h.1, h.2.1⟩

/-- C10 counterexample.  On an all-zero heart spectrum (produced, for
example, by a stream of all-zero radar cubes from a fresh init) the scan
keeps the index variable at its prior value 0, and the source then
writes to decimatedSpectrumProduct[0 - 1], index -1 under int promotion,
outside [0, 256): the claim that the zeroing writes always stay in
bounds is false. -/
theorem claim_C10_counterexample :
    scan3 (fun _ => Rq.zero) VS_HEART_INDEX_START
      (VS_HEART_INDEX_END - VS_HEART_INDEX_START) 0 = 0 ∧
    ¬ (VS_HEART_INDEX_START ≤ scan3 (fun _ => Rq.zero) VS_HEART_INDEX_START
      (VS_HEART_INDEX_END - VS_HEART_INDEX_START) 0) ∧
    (-1 : ℤ) ∈ zero3Writes (scan3 (fun _ => Rq.zero) VS_HEART_INDEX_START
      (VS_HEART_INDEX_END - VS_HEART_INDEX_START) 0) ∧
    ¬ (0 ≤ (-1 : ℤ)) := by
  refine ⟨by decide, by decide, ?_, by decide⟩
  have h : scan3 (fun _ => Rq.zero) VS_HEART_INDEX_START
      (VS_HEART_INDEX_END - VS_HEART_INDEX_START) 0 = 0 := by decide
  rw [h]
  decide

/-! ## Toroidal neighborhood (pre-process stage) -/

theorem vsPeakTriple_eq_specTrip (i : ℕ) (h : i < VS_NUM_ANGLE_FFT) :
    vsPeakTriple i = (specTrip i 0, specTrip i 1, specTrip i 2) := by
  have h16 : i < 16 := h
  interval_cases i <;> decide

/-- C5.  The nine values the pre-process stage saves per range cell (the
switch-ladder neighborhood of the source, in its row-major store order)
are exactly the cells at rows lastPeakJ - 1, lastPeakJ, lastPeakJ + 1
and columns lastPeakI - 1, lastPeakI, lastPeakI + 1 of the 2-D angle
spectrum, each index taken modulo VS_NUM_ANGLE_FFT = 16, for every peak
pair in [0, 16) x [0, 16); in particular at peak (0, 0) the neighborhood
uses rows and columns 15, 0, 1. -/
theorem claim_C5_toroidal (g : ℕ → Rq × Rq) (pki pkj : ℕ)
    (hi : pki < VS_NUM_ANGLE_FFT) (hj : pkj < VS_NUM_ANGLE_FFT) :
    storedNine g pki pkj = specNine g pki pkj := by
  unfold storedNine specNine
  rw [vsPeakTriple_eq_specTrip pki hi, vsPeakTriple_eq_specTrip pkj hj]

/-- Witness for C5 at peak (0, 0): the wrap uses indices 15, 0, 1. -/
theorem claim_C5_toroidal_witness :
    storedNine (fun n => (Rq.ofNat n, Rq.zero)) 0 0 =
      specNine (fun n => (Rq.ofNat n, Rq.zero)) 0 0 ∧
    specTrip 0 0 = 15 ∧ specTrip 0 1 = 0 ∧ specTrip 0 2 = 1 :=
  ⟨claim_C5_toroidal (fun n => (Rq.ofNat n, Rq.zero)) 0 0 (by decide) (by decide),
   by decide, by decide, by decide⟩


/-! ## Run invariants -/

theorem vsRun_invariant (P : VsState → Prop)
    (hf : ∀ st inp, P st → P (vsProcessFrame st inp).2)
    (hl : ∀ st b, P st → P (vsHandleTargetLoss st b).2) :
    ∀ (evs : List VsEvent) (st : VsState), P st → P (vsRun st evs) := by
  intro evs
  induction evs with
  | nil => intro st h; exact h
  | cons e t ih =>
    intro st h
    cases e with
    | frame inp => exact ih _ (hf st inp h)
    | loss b => exact ih _ (hl st b h)

/-! ## Ping-pong offsets -/

theorem preProcess_off (st : VsState) (g : ℕ → ℕ → Rq × Rq) (c : ℕ) :
    ((vsRunPreProcess st g c).vsMeanCntOffset0,
     (vsRunPreProcess st g c).vsMeanCntOffset1) =
      if c = VS_TOTAL_FRAME - 1 then
        (if st.vsMeanCntOffset0 = 0 then
          (VS_NUM_RANGE_SEL_BIN * VS_NUM_VIRTUAL_CHANNEL, 0)
        else (0, VS_NUM_RANGE_SEL_BIN * VS_NUM_VIRTUAL_CHANNEL))
      else (st.vsMeanCntOffset0, st.vsMeanCntOffset1) := rfl

theorem preProcess_offInv (st : VsState) (g : ℕ → ℕ → Rq × Rq) (c : ℕ)
    (h : offInv st) : offInv (vsRunPreProcess st g c) := by
  have hp := preProcess_off st g c
  by_cases hc : c = VS_TOTAL_FRAME - 1
  · rw [if_pos hc] at hp
    rcases h with ⟨h0, h1⟩ | ⟨h0, h1⟩
    · rw [if_pos h0] at hp
      exact Or.inr ⟨congrArg Prod.fst hp, congrArg Prod.snd hp⟩
    · have hne : st.vsMeanCntOffset0 ≠ 0 := by rw [h0]; decide
      rw [if_neg hne] at hp
      exact Or.inl ⟨congrArg Prod.fst hp, congrArg Prod.snd hp⟩
  · rw [if_neg hc] at hp
    rcases h with ⟨h0, h1⟩ | ⟨h0, h1⟩
    · exact Or.inl ⟨(congrArg Prod.fst hp).trans h0,
        (congrArg Prod.snd hp).trans h1⟩
    · exact Or.inr ⟨(congrArg Prod.fst hp).trans h0,
        (congrArg Prod.snd hp).trans h1⟩

theorem stageData_offInv (st : VsState) (inp : FrameIn) (cube : ℕ → ℤ × ℤ)
    (h : offInv st) : offInv (vsStageData st inp cube) := by
  unfold vsStageData
  dsimp only
  split
  · exact preProcess_offInv _ inp.angleGrid _ h
  · exact h

theorem stageWrap_offInv (st : VsState) (h : offInv st) :
    offInv (vsStageWrap st) := by
  unfold vsStageWrap
  split
  · exact h
  · exact h

set_option maxHeartbeats 1600000 in
theorem compute_off (st : VsState) (c : ComputeIn) :
    (vsComputeVitalSign st c).vsMeanCntOffset0 = st.vsMeanCntOffset0 ∧
    (vsComputeVitalSign st c).vsMeanCntOffset1 = st.vsMeanCntOffset1 :=
  ⟨rfl, rfl⟩

theorem withLoop_off (s : VsState) (n : ℕ) :
    ({ s with vsLoop := n } : VsState).vsMeanCntOffset0 = s.vsMeanCntOffset0 ∧
    ({ s with vsLoop := n } : VsState).vsMeanCntOffset1 = s.vsMeanCntOffset1 :=
  ⟨rfl, rfl⟩

theorem stageCompute_offInv (st : VsState) (inp : FrameIn) (h : offInv st) :
    offInv (vsStageCompute st inp) := by
  unfold vsStageCompute
  dsimp only
  split
  · unfold offInv at h ⊢
    rw [(withLoop_off _ _).1, (withLoop_off _ _).2,
      (compute_off st inp.compute).1, (compute_off st inp.compute).2]
    exact h
  · exact h

theorem frameBody_offInv (st : VsState) (inp : FrameIn) (cube : ℕ → ℤ × ℤ)
    (h : offInv st) : offInv (vsFrameBody st inp cube) :=
  stageCompute_offInv _ inp (stageWrap_offInv _ (stageData_offInv st inp cube h))

theorem frame_offInv (st : VsState) (inp : FrameIn) (h : offInv st) :
    offInv (vsProcessFrame st inp).2 := by
  unfold vsProcessFrame
  rcases hc : inp.cube with _ | c <;> by_cases hi : st.inited = false <;>
    by_cases he : st.cfgEnabled = false <;> simp [hi, he, hc] <;>
      first
      | exact h
      | exact frameBody_offInv st inp c h

theorem loss_offInv (st : VsState) (b : Bool) (h : offInv st) :
    offInv (vsHandleTargetLoss st b).2 := by
  unfold vsHandleTargetLoss
  dsimp only
  split
  · split <;> exact h
  · exact h

/-- C2.  From init or reset, every state reachable under processFrame
and handleTargetLoss events keeps the ping-pong offsets distinct with
sum R_SEL * R_VA = 60; the two halves [off0, off0 + 60) and
[off1, off1 + 60) of the DC mean buffer are disjoint and hold exactly
60 elements each. -/
theorem claim_C2_pingpong :
    (∀ (enabled : Bool) (evs : List VsEvent),
      (vsRun (vsInitState enabled) evs).vsMeanCntOffset0 ≠
        (vsRun (vsInitState enabled) evs).vsMeanCntOffset1 ∧
      (vsRun (vsInitState enabled) evs).vsMeanCntOffset0 +
        (vsRun (vsInitState enabled) evs).vsMeanCntOffset1 =
        VS_NUM_RANGE_SEL_BIN * VS_NUM_VIRTUAL_CHANNEL ∧
      Disjoint
        (Finset.Ico (vsRun (vsInitState enabled) evs).vsMeanCntOffset0
          ((vsRun (vsInitState enabled) evs).vsMeanCntOffset0 + 60))
        (Finset.Ico (vsRun (vsInitState enabled) evs).vsMeanCntOffset1
          ((vsRun (vsInitState enabled) evs).vsMeanCntOffset1 + 60)) ∧
      (Finset.Ico (vsRun (vsInitState enabled) evs).vsMeanCntOffset0
        ((vsRun (vsInitState enabled) evs).vsMeanCntOffset0 + 60)).card = 60 ∧
      (Finset.Ico (vsRun (vsInitState enabled) evs).vsMeanCntOffset1
        ((vsRun (vsInitState enabled) evs).vsMeanCntOffset1 + 60)).card = 60) ∧
    (∀ st : VsState,
      (vsReset st).vsMeanCntOffset0 ≠ (vsReset st).vsMeanCntOffset1 ∧
      (vsReset st).vsMeanCntOffset0 + (vsReset st).vsMeanCntOffset1 =
        VS_NUM_RANGE_SEL_BIN * VS_NUM_VIRTUAL_CHANNEL) := by
  have props : ∀ st : VsState, offInv st →
      st.vsMeanCntOffset0 ≠ st.vsMeanCntOffset1 ∧
      st.vsMeanCntOffset0 + st.vsMeanCntOffset1 =
        VS_NUM_RANGE_SEL_BIN * VS_NUM_VIRTUAL_CHANNEL ∧
      Disjoint (Finset.Ico st.vsMeanCntOffset0 (st.vsMeanCntOffset0 + 60))
        (Finset.Ico st.vsMeanCntOffset1 (st.vsMeanCntOffset1 + 60)) ∧
      (Finset.Ico st.vsMeanCntOffset0 (st.vsMeanCntOffset0 + 60)).card = 60 ∧
      (Finset.Ico st.vsMeanCntOffset1 (st.vsMeanCntOffset1 + 60)).card = 60 := by
    intro st h
    have e60 : VS_NUM_RANGE_SEL_BIN * VS_NUM_VIRTUAL_CHANNEL = 60 := rfl
    rcases h with ⟨h0, h1⟩ | ⟨h0, h1⟩
    · rw [h0, h1, e60]
      refine ⟨by norm_num, by norm_num, ?_, by simp, by simp⟩
      simpa using Finset.Ico_disjoint_Ico_consecutive 0 60 120
    · rw [h0, h1, e60]
      refine ⟨by norm_num, by norm_num, ?_, by simp, by simp⟩
      simpa using (Finset.Ico_disjoint_Ico_consecutive 0 60 120).symm
  constructor
  · intro enabled evs
    have hinv : offInv (vsRun (vsInitState enabled) evs) := by
      refine vsRun_invariant offInv frame_offInv loss_offInv evs _ ?_
      exact Or.inl ⟨rfl, rfl⟩
    exact props _ hinv
  · intro st
    have h := props (vsReset st) (Or.inl ⟨rfl, rfl⟩)
    exact ⟨h.1, h.2.1⟩

/-! ## C3: the jump limiter -/

/-- Whenever the warm-up gate is past and the uint16 store of
prev0 + 12 cannot wrap, the jump-limited index is within 12 of the
newest history slot. -/
theorem vsJumpLimit_dist (cand prev0 vsLoop : ℕ)
    (hl : VS_MASK_LOOP_NO < vsLoop)
    (hw : prev0 + VS_HEART_RATE_JUMP_LIMIT < 65536) :
    distN (vsJumpLimit cand prev0 vsLoop) prev0 ≤ VS_HEART_RATE_JUMP_LIMIT := by
  simp only [vsJumpLimit, distN, VS_HEART_RATE_JUMP_LIMIT, VS_MASK_LOOP_NO] at *
  split_ifs <;> omega

/-- C3 (amended).  If the warm-up gate is past, no target loss is
indicated, and previousHeartPeak[0] + 12 fits in a uint16, then the
published heart rate is the jump-limited index scaled by K_BPM, and
that index is within J_MAX = 12 of previousHeartPeak[0] as read at the
start of the decision stage.  (The original claim is falsified when
indicateNoTarget is set: see the counterexample.) -/
theorem claim_C3_jump_limited (st : VsState) (inp : ComputeIn)
    (hl : VS_MASK_LOOP_NO < st.vsLoop)
    (ht : st.indicateNoTarget = false)
    (hw : st.prevHeartPeak0 + VS_HEART_RATE_JUMP_LIMIT < 65536) :
    ∃ h : ℕ, distN h st.prevHeartPeak0 ≤ VS_HEART_RATE_JUMP_LIMIT ∧
      (vsComputeVitalSign st inp).output.heartRate =
        Rq.mul (Rq.ofNat h) kBpm := by
  unfold vsComputeVitalSign
  dsimp only
  refine ⟨vsJumpLimit
    (vsCandidate
      (vsPresentPeaks (vsCellLoop inp).heartStorage
        (vsHeartHist (vsCellLoop inp))).1
      st.prevHeartPeak3 (vsHeartHist (vsCellLoop inp)))
    st.prevHeartPeak0 st.vsLoop,
    vsJumpLimit_dist _ _ _ hl hw, ?_⟩
  simp only [vsAssembleOutput, ht, Bool.false_eq_true, if_false]
  rw [if_neg (Nat.lt_asymm hl)]

/-- Witness for C3 at the warmed-up state with empty history. -/
theorem claim_C3_jump_limited_witness :
    VS_MASK_LOOP_NO < stWarm8.vsLoop ∧
    ∃ h : ℕ, distN h stWarm8.prevHeartPeak0 ≤ VS_HEART_RATE_JUMP_LIMIT ∧
      (vsComputeVitalSign stWarm8 zeroComputeIn).output.heartRate =
        Rq.mul (Rq.ofNat h) kBpm :=
  ⟨by decide,
   claim_C3_jump_limited stWarm8 zeroComputeIn (by decide) (by decide)
     (by decide)⟩

/-- C3 counterexample.  At a state past warm-up whose indicateNoTarget
flag is set (history slots all 69), the decision stage publishes
heartRate = 0, yet no index within 12 of previousHeartPeak[0] = 69 can
produce that value: the only index whose scaled rate is 0 is 0 itself,
at distance 69 > 12.  The claim as stated, quantified over every
decision-stage execution past warm-up, therefore fails. -/
theorem claim_C3_counterexample :
    VS_MASK_LOOP_NO < stNoTarget.vsLoop ∧
    ∀ h : ℕ,
      Rq.val (vsComputeVitalSign stNoTarget zeroComputeIn).output.heartRate =
        Rq.val (Rq.mul (Rq.ofNat h) kBpm) →
      VS_HEART_RATE_JUMP_LIMIT < distN h stNoTarget.prevHeartPeak0 := by
  refine ⟨by decide, ?_⟩
  intro h hv
  have e0 : (vsComputeVitalSign stNoTarget zeroComputeIn).output.heartRate =
      Rq.zero := rfl
  rw [e0, Rq.val_zero, Rq.val_mul, Rq.val_ofNat, kBpm_val] at hv
  have hk : (441 : ℚ) / 500 ≠ 0 := by norm_num
  have h0 : (h : ℚ) = 0 := by
    rcases mul_eq_zero.mp hv.symm with h | h
    · exact h
    · exact absurd h hk
  have : h = 0 := Nat.cast_injective h0
  subst this
  decide

/-! ## C7: target-loss persistence -/

theorem stageData_keeps (st : VsState) (inp : FrameIn) (cube : ℕ → ℤ × ℤ) :
    (vsStageData st inp cube).indicateNoTarget = st.indicateNoTarget ∧
    (vsStageData st inp cube).targetLostFrames = st.targetLostFrames ∧
    (vsStageData st inp cube).output = st.output := by
  unfold vsStageData
  dsimp only
  split
  · exact ⟨rfl, rfl, rfl⟩
  · exact ⟨rfl, rfl, rfl⟩

theorem stageWrap_keeps (st : VsState) :
    (vsStageWrap st).indicateNoTarget = st.indicateNoTarget ∧
    (vsStageWrap st).targetLostFrames = st.targetLostFrames ∧
    (vsStageWrap st).output = st.output := by
  unfold vsStageWrap
  split
  · exact ⟨rfl, rfl, rfl⟩
  · exact ⟨rfl, rfl, rfl⟩

set_option maxHeartbeats 1600000 in
theorem compute_keepLoss (st : VsState) (c : ComputeIn) :
    (vsComputeVitalSign st c).indicateNoTarget = st.indicateNoTarget ∧
    (vsComputeVitalSign st c).targetLostFrames = st.targetLostFrames :=
  ⟨rfl, rfl⟩

theorem withLoop_keeps (s : VsState) (n : ℕ) :
    ({ s with vsLoop := n } : VsState).indicateNoTarget = s.indicateNoTarget ∧
    ({ s with vsLoop := n } : VsState).targetLostFrames = s.targetLostFrames ∧
    ({ s with vsLoop := n } : VsState).output = s.output :=
  ⟨rfl, rfl, rfl⟩

set_option maxHeartbeats 1600000 in
/-- When the no-target flag is up, the decision stage publishes the
all-zero result. -/
theorem compute_output_noTarget (st : VsState) (c : ComputeIn)
    (h : st.indicateNoTarget = true) :
    (vsComputeVitalSign st c).output = zeroOutput := by
  unfold vsComputeVitalSign vsAssembleOutput
  dsimp only
  rw [h]
  rfl

theorem stageCompute_keepLoss (st : VsState) (inp : FrameIn) :
    (vsStageCompute st inp).indicateNoTarget = st.indicateNoTarget ∧
    (vsStageCompute st inp).targetLostFrames = st.targetLostFrames := by
  unfold vsStageCompute
  dsimp only
  split
  · exact ⟨(withLoop_keeps _ _).1.trans (compute_keepLoss st inp.compute).1,
      (withLoop_keeps _ _).2.1.trans (compute_keepLoss st inp.compute).2⟩
  · exact ⟨rfl, rfl⟩

theorem frameBody_keepLoss (st : VsState) (inp : FrameIn) (cube : ℕ → ℤ × ℤ) :
    (vsFrameBody st inp cube).indicateNoTarget = st.indicateNoTarget ∧
    (vsFrameBody st inp cube).targetLostFrames = st.targetLostFrames := by
  unfold vsFrameBody
  exact ⟨(stageCompute_keepLoss _ inp).1.trans
      ((stageWrap_keeps _).1.trans (stageData_keeps st inp cube).1),
    (stageCompute_keepLoss _ inp).2.trans
      ((stageWrap_keeps _).2.1.trans (stageData_keeps st inp cube).2.1)⟩

set_option linter.unnecessarySeqFocus false in
theorem frame_keepLoss (st : VsState) (inp : FrameIn) :
    (vsProcessFrame st inp).2.indicateNoTarget = st.indicateNoTarget ∧
    (vsProcessFrame st inp).2.targetLostFrames = st.targetLostFrames := by
  unfold vsProcessFrame
  rcases hc : inp.cube with _ | c <;> by_cases hi : st.inited = false <;>
    by_cases he : st.cfgEnabled = false <;> simp [hi, he, hc] <;>
      first
      | exact ⟨rfl, rfl⟩
      | exact frameBody_keepLoss st inp c

theorem lossTrue_counter (st : VsState) :
    (vsHandleTargetLoss st true).2.targetLostFrames =
      (st.targetLostFrames + 1) % 65536 := by
  unfold vsHandleTargetLoss
  rw [if_pos rfl]
  dsimp only
  split <;> rfl

theorem lossTrue_flag (st : VsState)
    (h : VS_TARGET_PERSIST_FRAMES ≤ (st.targetLostFrames + 1) % 65536) :
    (vsHandleTargetLoss st true).2.indicateNoTarget = true := by
  unfold vsHandleTargetLoss
  rw [if_pos rfl]
  dsimp only
  rw [if_pos h]

theorem lossTrue_keepFlag (st : VsState) (h : st.indicateNoTarget = true) :
    (vsHandleTargetLoss st true).2.indicateNoTarget = true ∧
    (vsHandleTargetLoss st true).2.output = st.output := by
  unfold vsHandleTargetLoss
  rw [if_pos rfl]
  dsimp only
  split
  · exact ⟨rfl, rfl⟩
  · exact ⟨h, rfl⟩

/-- Lost-target calls never clear the flag. -/
theorem lossN_keepFlag : ∀ (n : ℕ) (st : VsState),
    st.indicateNoTarget = true → (lossN n st).indicateNoTarget = true := by
  intro n
  induction n with
  | zero => intro st h; exact h
  | succ m ih => intro st h; exact ih _ (lossTrue_keepFlag st h).1

/-- Enough consecutive lost frames to push the (non-wrapping) counter to
the threshold set the flag. -/
theorem lossN_sets (n : ℕ) : ∀ st : VsState,
    VS_TARGET_PERSIST_FRAMES ≤ st.targetLostFrames + n →
    st.targetLostFrames + n < 65536 → 1 ≤ n →
    (lossN n st).indicateNoTarget = true := by
  induction n with
  | zero => intro st h1 h2 h3; omega
  | succ m ih =>
    intro st h1 h2 _
    have hc : (st.targetLostFrames + 1) % 65536 = st.targetLostFrames + 1 :=
      Nat.mod_eq_of_lt (by omega)
    by_cases hge : VS_TARGET_PERSIST_FRAMES ≤ st.targetLostFrames + 1
    · exact lossN_keepFlag m _ (lossTrue_flag st (by rw [hc]; exact hge))
    · have hcnt := lossTrue_counter st
      refine ih ((vsHandleTargetLoss st true).2) ?_ ?_ ?_
      · rw [hcnt, hc]; omega
      · rw [hcnt, hc]; omega
      · omega

theorem loss_lossInv (st : VsState) (b : Bool) (h : lossInv st) :
    lossInv (vsHandleTargetLoss st b).2 := by
  cases b
  · left
    unfold vsHandleTargetLoss
    rw [if_neg Bool.false_ne_true]
    show (0 : ℕ) < VS_TARGET_PERSIST_FRAMES
    decide
  · rcases h with h | h
    · by_cases hge : VS_TARGET_PERSIST_FRAMES ≤ (st.targetLostFrames + 1) % 65536
      · exact Or.inr (lossTrue_flag st hge)
      · left
        rw [lossTrue_counter st]
        omega
    · exact Or.inr (lossTrue_keepFlag st h).1

theorem run_lossInv (enabled : Bool) (evs : List VsEvent) :
    lossInv (vsRun (vsInitState enabled) evs) := by
  refine vsRun_invariant lossInv ?_ ?_ evs _ ?_
  · intro st inp h
    unfold lossInv at *
    rw [(frame_keepLoss st inp).2, (frame_keepLoss st inp).1]
    exact h
  · intro st b h
    exact loss_lossInv st b h
  · exact Or.inl (by show (0 : ℕ) < VS_TARGET_PERSIST_FRAMES; decide)

theorem stageCompute_noTarget (st : VsState) (inp : FrameIn)
    (h : st.indicateNoTarget = true) :
    (vsStageCompute st inp).indicateNoTarget = true ∧
    ((vsStageCompute st inp).output = st.output ∨
     (vsStageCompute st inp).output = zeroOutput) := by
  unfold vsStageCompute
  dsimp only
  split
  · refine ⟨((withLoop_keeps _ _).1.trans
      (compute_keepLoss st inp.compute).1).trans h, Or.inr ?_⟩
    rw [(withLoop_keeps _ _).2.2]
    exact compute_output_noTarget st inp.compute h
  · exact ⟨h, Or.inl rfl⟩

theorem frameBody_noTarget (st : VsState) (inp : FrameIn) (cube : ℕ → ℤ × ℤ)
    (h : st.indicateNoTarget = true) :
    (vsFrameBody st inp cube).indicateNoTarget = true ∧
    ((vsFrameBody st inp cube).output = st.output ∨
     (vsFrameBody st inp cube).output = zeroOutput) := by
  unfold vsFrameBody
  have h1 := stageData_keeps st inp cube
  have h2 := stageWrap_keeps (vsStageData st inp cube)
  have h3 := stageCompute_noTarget (vsStageWrap (vsStageData st inp cube)) inp
    (h2.1.trans (h1.1.trans h))
  refine ⟨h3.1, ?_⟩
  rcases h3.2 with e | e
  · exact Or.inl (e.trans (h2.2.2.trans h1.2.2))
  · exact Or.inr e

set_option linter.unnecessarySeqFocus false in
theorem frame_noTarget (st : VsState) (inp : FrameIn)
    (h : st.indicateNoTarget = true) :
    (vsProcessFrame st inp).2.indicateNoTarget = true ∧
    ((vsProcessFrame st inp).2.output = st.output ∨
     (vsProcessFrame st inp).2.output = zeroOutput) := by
  unfold vsProcessFrame
  rcases hc : inp.cube with _ | c <;> by_cases hi : st.inited = false <;>
    by_cases he : st.cfgEnabled = false <;> simp [hi, he, hc] <;>
      first
      | exact h
      | exact ⟨h, Or.inl rfl⟩
      | exact frameBody_noTarget st inp c h

/-- From a flagged state, events that never report the target found keep
the flag up and never publish anything but the all-zero result. -/
theorem run_noTarget (evs : List VsEvent)
    (hev : ∀ e ∈ evs, e ≠ VsEvent.loss false) :
    ∀ st : VsState, st.indicateNoTarget = true →
      (vsRun st evs).indicateNoTarget = true ∧
      ((vsRun st evs).output = st.output ∨
       (vsRun st evs).output = zeroOutput) := by
  induction evs with
  | nil => intro st h; exact ⟨h, Or.inl rfl⟩
  | cons e t ih =>
    intro st h
    have het : ∀ x ∈ t, x ≠ VsEvent.loss false :=
      fun x hx => hev x (List.mem_cons_of_mem e hx)
    cases e with
    | frame inp =>
      have hf := frame_noTarget st inp h
      have estep : vsRun st (VsEvent.frame inp :: t) =
          vsRun (vsProcessFrame st inp).2 t := rfl
      rw [estep]
      have hr := ih het _ hf.1
      refine ⟨hr.1, ?_⟩
      rcases hr.2 with e1 | e1
      · rcases hf.2 with e2 | e2
        · exact Or.inl (e1.trans e2)
        · exact Or.inr (e1.trans e2)
      · exact Or.inr e1
    | loss b =>
      have hb : b = true := by
        have hne := hev (VsEvent.loss b) (List.mem_cons_self _ _)
        cases b
        · exact absurd rfl hne
        · rfl
      subst hb
      have hf := lossTrue_keepFlag st h
      have estep : vsRun st (VsEvent.loss true :: t) =
          vsRun (vsHandleTargetLoss st true).2 t := rfl
      rw [estep]
      have hr := ih het _ hf.1
      refine ⟨hr.1, ?_⟩
      rcases hr.2 with e1 | e1
      · exact Or.inl (e1.trans hf.2)
      · exact Or.inr e1

/-- C7.  From any state reachable from init, fifty consecutive lost
target calls raise the no-target flag; from any flagged state, as long
as no found-target call occurs, the flag stays up and the published
result record is either untouched or the all-zero record with valid = 0;
and a found-target call clears both the lost-frame counter and the
flag. -/
theorem claim_C7_target_loss :
    (∀ (enabled : Bool) (evs0 : List VsEvent),
      (lossN VS_TARGET_PERSIST_FRAMES
        (vsRun (vsInitState enabled) evs0)).indicateNoTarget = true) ∧
    (∀ st : VsState, st.indicateNoTarget = true →
      ∀ evs : List VsEvent, (∀ e ∈ evs, e ≠ VsEvent.loss false) →
        (vsRun st evs).indicateNoTarget = true ∧
        ((vsRun st evs).output = st.output ∨
         (vsRun st evs).output = zeroOutput)) ∧
    (∀ st : VsState,
      (vsHandleTargetLoss st false).2.targetLostFrames = 0 ∧
      (vsHandleTargetLoss st false).2.indicateNoTarget = false) := by
  refine ⟨?_, ?_, ?_⟩
  · intro enabled evs0
    rcases run_lossInv enabled evs0 with h | h
    · refine lossN_sets VS_TARGET_PERSIST_FRAMES _ ?_ ?_ ?_
      · omega
      · simp only [VS_TARGET_PERSIST_FRAMES] at h ⊢
        omega
      · decide
    · exact lossN_keepFlag _ _ h
  · intro st h evs hev
    exact run_noTarget evs hev st h
  · intro st
    constructor
    · unfold vsHandleTargetLoss
      rw [if_neg Bool.false_ne_true]
    · unfold vsHandleTargetLoss
      rw [if_neg Bool.false_ne_true]

/-- Witness for C7 on the empty run and the flagged state. -/
theorem claim_C7_target_loss_witness :
    (lossN VS_TARGET_PERSIST_FRAMES
      (vsRun (vsInitState true) [])).indicateNoTarget = true ∧
    (vsRun stNoTarget []).indicateNoTarget = true ∧
    (vsHandleTargetLoss stNoTarget false).2.targetLostFrames = 0 :=
  ⟨claim_C7_target_loss.1 true [],
   (claim_C7_target_loss.2.1 stNoTarget (by decide) []
     (by intro e he; exact absurd he (List.not_mem_nil e))).1,
   (claim_C7_target_loss.2.2 stNoTarget).1⟩

/-! ## C8: the phase round trip -/

/-- Bracketing of the fueled binary logarithm. -/
theorem log2F_bracket : ∀ (fuel n : ℕ), 1 ≤ n → n < 2 ^ fuel →
    2 ^ log2F fuel n ≤ n ∧ n < 2 ^ (log2F fuel n + 1) := by
  intro fuel
  induction fuel with
  | zero =>
    intro n h1 h2
    simp only [pow_zero] at h2
    omega
  | succ f ih =>
    intro n h1 h2
    show 2 ^ (if 2 ≤ n then log2F f (n / 2) + 1 else 0) ≤ n ∧
      n < 2 ^ ((if 2 ≤ n then log2F f (n / 2) + 1 else 0) + 1)
    split_ifs with h
    · have hf : n / 2 < 2 ^ f := by
        rw [pow_succ] at h2
        omega
      have hb := ih (n / 2) (by omega) hf
      rw [pow_succ, pow_succ]
      omega
    · constructor
      · simpa using h1
      · simpa using by omega

/-- Nearest-even division is within half a divisor of the exact ratio,
in cleared-denominator form. -/
theorem rdivNE_le (a b : ℕ) (hb : 0 < b) :
    2 * (rdivNE a b * b) ≤ 2 * a + b ∧ 2 * a ≤ 2 * (rdivNE a b * b) + b := by
  have hmod0 := Nat.div_add_mod a b
  rw [mul_comm] at hmod0
  have hlt := Nat.mod_lt a hb
  have hdistr : (a / b + 1) * b = a / b * b + b := by ring
  unfold rdivNE
  dsimp only
  set Y := a / b * b with hY
  split_ifs with h1 h2 h3
  · omega
  · rw [hdistr]
    omega
  · omega
  · rw [hdistr]
    omega

/-- Floor-division bracketing. -/
theorem natDiv_bounds (a b : ℕ) (hb : 0 < b) :
    a / b * b ≤ a ∧ a < (a / b + 1) * b := by
  refine ⟨Nat.div_mul_le_self a b, ?_⟩
  have h := Nat.div_add_mod a b
  have hr := Nat.mod_lt a hb
  calc a = b * (a / b) + a % b := h.symm
    _ < b * (a / b) + b := Nat.add_lt_add_left hr _
    _ = (a / b + 1) * b := by ring

/-- The f32 rounding of a positive ratio in the representable range
[2^-32, 2^24) has relative error at most 2^-24, stated in
cleared-denominator form. -/
theorem flPosQ_spec_val (n d : ℕ) (hd : 0 < d)
    (hlo : d ≤ n * 2 ^ 32) (hhi : n < 2 ^ 24 * d) :
    0 < (flPosQ n d).den ∧ 0 ≤ (flPosQ n d).num ∧
    (16777215 : ℚ) * ((n : ℚ) / d) ≤ 16777216 * (flPosQ n d).val ∧
    16777216 * (flPosQ n d).val ≤ (16777217 : ℚ) * ((n : ℚ) / d) := by
  have hn : 0 < n := by
    rcases Nat.eq_zero_or_pos n with h | h
    · subst h; simp at hlo; omega
    · exact h
  set J := n * 2 ^ 32 / d with hJ
  have hJ1 : 1 ≤ J := by
    rw [hJ, Nat.le_div_iff_mul_le hd]
    omega
  have hJd : J * d ≤ n * 2 ^ 32 := by
    rw [hJ]; exact Nat.div_mul_le_self _ _
  have hJup : n * 2 ^ 32 < (J + 1) * d := by
    rw [hJ]; exact (natDiv_bounds (n * 2 ^ 32) d hd).2
  have hJ56 : J < 2 ^ 56 := by
    rw [hJ, Nat.div_lt_iff_lt_mul hd]
    calc n * 2 ^ 32 < (2 ^ 24 * d) * 2 ^ 32 :=
          mul_lt_mul_of_pos_right hhi (by norm_num)
      _ = 2 ^ 56 * d := by ring
  set E := log2F 192 J with hE
  have hbr := log2F_bracket 192 J hJ1 (by
    calc J < 2 ^ 56 := hJ56
      _ < 2 ^ 192 := by norm_num)
  have hElo : 2 ^ E ≤ J := hbr.1
  have hEhi : J < 2 ^ (E + 1) := hbr.2
  have hE55 : E ≤ 55 := by
    by_contra hc
    push_neg at hc
    have h56 : (2 : ℕ) ^ 56 ≤ 2 ^ E := Nat.pow_le_pow_right (by norm_num) hc
    omega
  have h0 : ¬(n = 0 ∨ d = 0) := by omega
  have hs : (0 : ℤ) ≤ 23 - ((E : ℤ) - 32) := by omega
  have hsN : (23 - ((E : ℤ) - 32)).toNat = 55 - E := by omega
  have hrepr : flPosQ n d = ⟨(rdivNE (n * 2 ^ (55 - E)) d : ℤ), 2 ^ (55 - E)⟩ := by
    unfold flPosQ
    rw [if_neg h0]
    dsimp only
    simp only [flog2]
    rw [← hJ, ← hE, if_pos hs, hsN]
  have key1 : d * 2 ^ 23 ≤ n * 2 ^ (55 - E) := by
    have h1 : 2 ^ E * d ≤ n * 2 ^ 32 := le_trans (Nat.mul_le_mul_right d hElo) hJd
    have h2 : (2 ^ E * d) * 2 ^ (55 - E) ≤ (n * 2 ^ 32) * 2 ^ (55 - E) :=
      Nat.mul_le_mul_right _ h1
    have e1 : (2 ^ E * d) * 2 ^ (55 - E) = d * 2 ^ 23 * 2 ^ 32 := by
      rw [mul_comm (2 ^ E) d, mul_assoc, ← pow_add]
      have he : E + (55 - E) = 23 + 32 := by omega
      rw [he, pow_add]
      ring
    have e2 : (n * 2 ^ 32) * 2 ^ (55 - E) = (n * 2 ^ (55 - E)) * 2 ^ 32 := by
      ring
    rw [e1, e2] at h2
    exact Nat.le_of_mul_le_mul_right h2 (by norm_num)
  have key2 : n * 2 ^ (55 - E) < 2 ^ 24 * d := by
    have h1 : n * 2 ^ 32 < 2 ^ (E + 1) * d := by
      calc n * 2 ^ 32 < (J + 1) * d := hJup
        _ ≤ 2 ^ (E + 1) * d := Nat.mul_le_mul_right d (by omega)
    have h2 : (n * 2 ^ 32) * 2 ^ (55 - E) < (2 ^ (E + 1) * d) * 2 ^ (55 - E) :=
      mul_lt_mul_of_pos_right h1 (by positivity)
    have e1 : (2 ^ (E + 1) * d) * 2 ^ (55 - E) = (2 ^ 24 * d) * 2 ^ 32 := by
      rw [mul_comm _ d, mul_assoc, ← pow_add]
      have he : (E + 1) + (55 - E) = 24 + 32 := by omega
      rw [he, pow_add]
      ring
    have e2 : (n * 2 ^ 32) * 2 ^ (55 - E) = (n * 2 ^ (55 - E)) * 2 ^ 32 := by
      ring
    rw [e1, e2] at h2
    exact lt_of_mul_lt_mul_right h2 (by positivity)
  have hL := rdivNE_le (n * 2 ^ (55 - E)) d hd
  set m := rdivNE (n * 2 ^ (55 - E)) d with hm
  set A := n * 2 ^ (55 - E) with hA
  set MD := m * d with hMD
  have up : 16777216 * MD ≤ 16777217 * A := by omega
  have low : 16777215 * A ≤ 16777216 * MD := by omega
  rw [hrepr]
  refine ⟨by positivity, by positivity, ?_, ?_⟩
  · have hdQ : (0 : ℚ) < (d : ℚ) := by exact_mod_cast hd
    have hSQ : (0 : ℚ) < (((2 : ℕ) ^ (55 - E) : ℕ) : ℚ) := by positivity
    simp only [Rq.val]
    rw [← mul_div_assoc, ← mul_div_assoc, div_le_div_iff₀ hdQ hSQ]
    have lowQ : (16777215 : ℚ) * A ≤ 16777216 * MD := by exact_mod_cast low
    rw [hA] at lowQ
    rw [hMD] at lowQ
    push_cast at lowQ ⊢
    nlinarith [lowQ]
  · have hdQ : (0 : ℚ) < (d : ℚ) := by exact_mod_cast hd
    have hSQ : (0 : ℚ) < (((2 : ℕ) ^ (55 - E) : ℕ) : ℚ) := by positivity
    simp only [Rq.val]
    rw [← mul_div_assoc, ← mul_div_assoc, div_le_div_iff₀ hSQ hdQ]
    have upQ : (16777216 : ℚ) * MD ≤ 16777217 * A := by exact_mod_cast up
    rw [hA] at upQ
    rw [hMD] at upQ
    push_cast at upQ ⊢
    nlinarith [upQ]

/-- f32 rounding of a nonnegative value in [2^-32, 2^24): relative error
at most 2^-24, together with sign and denominator facts used to chain
roundings. -/
theorem fl32_spec (q : Rq) (hden : 0 < q.den) (hnum : 0 ≤ q.num)
    (hlo : 1 / 4294967296 ≤ q.val) (hhi : q.val < 16777216) :
    0 < (fl32 q).den ∧ 0 ≤ (fl32 q).num ∧
    (16777215 : ℚ) * q.val ≤ 16777216 * (fl32 q).val ∧
    16777216 * (fl32 q).val ≤ (16777217 : ℚ) * q.val := by
  have hdQ : (0 : ℚ) < (q.den : ℚ) := by exact_mod_cast hden
  have hv : ((q.num.toNat : ℕ) : ℚ) / (q.den : ℚ) = q.val := by
    rw [Rq.val]
    congr 1
    exact_mod_cast congrArg (fun z : ℤ => (z : ℚ)) (Int.toNat_of_nonneg hnum)
  have hloN : q.den ≤ q.num.toNat * 2 ^ 32 := by
    rw [← hv, div_le_div_iff₀ (by norm_num) hdQ] at hlo
    have hq : (q.den : ℚ) ≤ (q.num.toNat : ℚ) * 4294967296 := by linarith
    have h32 : (2 : ℕ) ^ 32 = 4294967296 := by norm_num
    rw [h32]
    exact_mod_cast hq
  have hhiN : q.num.toNat < 2 ^ 24 * q.den := by
    rw [← hv, div_lt_iff₀ hdQ] at hhi
    have hq : (q.num.toNat : ℚ) < 16777216 * (q.den : ℚ) := by linarith
    have h24 : (2 : ℕ) ^ 24 = 16777216 := by norm_num
    rw [h24]
    exact_mod_cast hq
  have h := flPosQ_spec_val q.num.toNat q.den hden hloN hhiN
  rw [hv] at h
  unfold fl32
  rw [if_pos hnum]
  exact h

theorem Rq.val_mk (a : ℤ) (b : ℕ) : (Rq.mk a b).val = (a : ℚ) / (b : ℚ) := rfl

theorem Rq.val_mul2 (a b : Rq) : (Rq.mul a b).val = a.val * b.val := by
  simp [Rq.val, Rq.mul, div_mul_div_comm]

/-- Value of the exact division by the pi constant. -/
theorem val_divPos_pi (a : Rq) :
    (Rq.divPos a piF32).val = a.val * (4194304 / 13176795) := by
  simp only [Rq.val, Rq.divPos, piF32]
  push_cast
  rw [div_mul_div_comm]

/-- The phase round trip reproduces every positive 16-bit input up to one
unit of truncation loss. -/
theorem roundTrip_pos (k : ℕ) (hk1 : 1 ≤ k) (hk2 : k ≤ 32768) :
    (k : ℤ) - 1 ≤ phaseRoundTrip (k : ℤ) ∧ phaseRoundTrip (k : ℤ) ≤ (k : ℤ) := by
  have hkQ1 : (1 : ℚ) ≤ (k : ℚ) := by exact_mod_cast hk1
  have hkQ2 : (k : ℚ) ≤ 32768 := by exact_mod_cast hk2
  set q1 : Rq := Rq.mul (Rq.ofInt (k : ℤ)) piF32 with hq1
  have hq1num : 0 ≤ q1.num := by
    rw [hq1]
    show 0 ≤ (k : ℤ) * 13176795
    positivity
  have hq1den : 0 < q1.den := by
    rw [hq1]
    show 0 < 1 * 4194304
    norm_num
  have hq1val : q1.val = (k : ℚ) * (13176795 / 4194304) := by
    rw [hq1]
    show ((((k : ℤ) * 13176795 : ℤ) : ℚ)) / ((1 * 4194304 : ℕ) : ℚ) = _
    push_cast
    ring
  have hx1lo : (3 : ℚ) ≤ q1.val := by rw [hq1val]; linarith
  have hx1hi : q1.val ≤ 103000 := by rw [hq1val]; linarith
  have h1 := fl32_spec q1 hq1den hq1num (by linarith) (by linarith)
  obtain ⟨y1, hy1⟩ : ∃ y, fl32 q1 = y := ⟨_, rfl⟩
  rw [hy1] at h1
  have hv1lo : (2 : ℚ) ≤ y1.val := by linarith [h1.2.2.1]
  have hv1hi : y1.val ≤ 103007 := by linarith [h1.2.2.2]
  set q2 : Rq := Rq.mul y1 ⟨1, 32768⟩ with hq2
  have hq2num : 0 ≤ q2.num := by
    rw [hq2]
    show 0 ≤ y1.num * 1
    exact mul_nonneg h1.2.1 (by norm_num)
  have hq2den : 0 < q2.den := by
    rw [hq2]
    show 0 < y1.den * 32768
    exact Nat.mul_pos h1.1 (by norm_num)
  have hq2val : q2.val = y1.val * (1 / 32768) := by
    rw [hq2, Rq.val_mul2]
    norm_num [Rq.val_mk]
  have hx2lo : (1 : ℚ) / 20000 ≤ q2.val := by rw [hq2val]; linarith
  have hx2hi : q2.val ≤ 4 := by rw [hq2val]; linarith
  have h2 := fl32_spec q2 hq2den hq2num (by linarith) (by linarith)
  obtain ⟨y2, hy2⟩ : ∃ y, fl32 q2 = y := ⟨_, rfl⟩
  rw [hy2] at h2
  have hv2lo : (1 : ℚ) / 20001 ≤ y2.val := by linarith [h2.2.2.1]
  have hv2hi : y2.val ≤ 5 := by linarith [h2.2.2.2]
  set q3 : Rq := Rq.mul y2 ⟨32768, 1⟩ with hq3
  have hq3num : 0 ≤ q3.num := by
    rw [hq3]
    show 0 ≤ y2.num * 32768
    exact mul_nonneg h2.2.1 (by norm_num)
  have hq3den : 0 < q3.den := by
    rw [hq3]
    show 0 < y2.den * 1
    exact Nat.mul_pos h2.1 (by norm_num)
  have hq3val : q3.val = y2.val * 32768 := by
    rw [hq3, Rq.val_mul2]
    norm_num [Rq.val_mk]
  have hx3lo : (1 : ℚ) ≤ q3.val := by rw [hq3val]; linarith
  have hx3hi : q3.val ≤ 163840 := by rw [hq3val]; linarith
  have h3 := fl32_spec q3 hq3den hq3num (by linarith) (by linarith)
  obtain ⟨y3, hy3⟩ : ∃ y, fl32 q3 = y := ⟨_, rfl⟩
  rw [hy3] at h3
  have hv3lo : (1 : ℚ) / 2 ≤ y3.val := by linarith [h3.2.2.1]
  have hv3hi : y3.val ≤ 163850 := by linarith [h3.2.2.2]
  set q4 : Rq := Rq.divPos y3 piF32 with hq4
  have hq4num : 0 ≤ q4.num := by
    rw [hq4]
    show 0 ≤ y3.num * 4194304
    exact mul_nonneg h3.2.1 (by norm_num)
  have hq4den : 0 < q4.den := by
    rw [hq4]
    show 0 < y3.den * 13176795
    exact Nat.mul_pos h3.1 (by norm_num)
  have hq4val : q4.val = y3.val * (4194304 / 13176795) := by
    rw [hq4]
    exact val_divPos_pi y3
  have hx4lo : (1 : ℚ) / 8 ≤ q4.val := by rw [hq4val]; linarith
  have hx4hi : q4.val ≤ 60000 := by rw [hq4val]; linarith
  have h4 := fl32_spec q4 hq4den hq4num (by linarith) (by linarith)
  obtain ⟨y4, hy4⟩ : ∃ y, fl32 q4 = y := ⟨_, rfl⟩
  rw [hy4] at h4
  have s1up : 16777216 * y1.val ≤ 16777217 * ((k : ℚ) * (13176795 / 4194304)) := by
    rw [← hq1val]; exact h1.2.2.2
  have s1lo : 16777215 * ((k : ℚ) * (13176795 / 4194304)) ≤ 16777216 * y1.val := by
    rw [← hq1val]; exact h1.2.2.1
  have s2up : 16777216 * y2.val ≤ 16777217 * (y1.val * (1 / 32768)) := by
    rw [← hq2val]; exact h2.2.2.2
  have s2lo : 16777215 * (y1.val * (1 / 32768)) ≤ 16777216 * y2.val := by
    rw [← hq2val]; exact h2.2.2.1
  have s3up : 16777216 * y3.val ≤ 16777217 * (y2.val * 32768) := by
    rw [← hq3val]; exact h3.2.2.2
  have s3lo : 16777215 * (y2.val * 32768) ≤ 16777216 * y3.val := by
    rw [← hq3val]; exact h3.2.2.1
  have s4up : 16777216 * y4.val ≤ 16777217 * (y3.val * (4194304 / 13176795)) := by
    rw [← hq4val]; exact h4.2.2.2
  have s4lo : 16777215 * (y3.val * (4194304 / 13176795)) ≤ 16777216 * y4.val := by
    rw [← hq4val]; exact h4.2.2.1
  have final_up : y4.val < (k : ℚ) + 1 := by linarith
  have final_lo : (k : ℚ) - 1 < y4.val := by linarith
  have hrt0 : phaseRoundTrip (k : ℤ) = truncZ y4 := by
    rw [show phaseRoundTrip (k : ℤ) =
        truncZ (fl32 (Rq.divPos (fl32 (Rq.mul (fl32 (Rq.mul (fl32
          (Rq.mul (Rq.ofInt (k : ℤ)) piF32)) ⟨1, 32768⟩)) ⟨32768, 1⟩)) piF32))
      from rfl]
    rw [← hq1, hy1, ← hq2, hy2, ← hq3, hy3, ← hq4, hy4]
  rw [hrt0]
  have htr : truncZ y4 = ((y4.num.toNat / y4.den : ℕ) : ℤ) := by
    unfold truncZ
    rw [if_pos h4.2.1]
  rw [htr]
  set N : ℕ := y4.num.toNat / y4.den with hN
  have hb := natDiv_bounds y4.num.toNat y4.den h4.1
  have hdQ : (0 : ℚ) < (y4.den : ℚ) := by exact_mod_cast h4.1
  have hnumc : ((y4.num.toNat : ℕ) : ℚ) = ((y4.num : ℤ) : ℚ) := by
    exact_mod_cast congrArg (fun z : ℤ => (z : ℚ)) (Int.toNat_of_nonneg h4.2.1)
  have hNQ1 : (N : ℚ) ≤ y4.val := by
    rw [Rq.val, ← hnumc, le_div_iff₀ hdQ]
    exact_mod_cast hb.1
  have hNQ2 : y4.val < (N : ℚ) + 1 := by
    rw [Rq.val, ← hnumc, div_lt_iff₀ hdQ]
    have hcast : ((y4.num.toNat : ℕ) : ℚ) < ((N + 1) * y4.den : ℕ) := by
      exact_mod_cast hb.2
    push_cast at hcast ⊢
    linarith
  have hNk1 : N < k + 1 := by
    have hq : (N : ℚ) < (k : ℚ) + 1 := lt_of_le_of_lt hNQ1 final_up
    exact_mod_cast hq
  have hNk2 : k < N + 2 := by
    have hq : (k : ℚ) < (N : ℚ) + 2 := by linarith
    exact_mod_cast hq
  constructor <;> omega

/-- IEEE-754 rounding commutes with negation. -/
theorem fl32_neg (a : ℤ) (b : ℕ) :
    fl32 ⟨-a, b⟩ = ⟨-(fl32 ⟨a, b⟩).num, (fl32 ⟨a, b⟩).den⟩ := by
  rcases lt_trichotomy a 0 with h | h | h
  · unfold fl32
    dsimp only
    rw [if_pos (by omega : (0 : ℤ) ≤ -a), if_neg (by omega : ¬ (0 : ℤ) ≤ a)]
    rw [neg_neg]
  · subst h
    norm_num [fl32, flPosQ, Rq.zero]
  · unfold fl32
    dsimp only
    rw [if_neg (by omega : ¬ (0 : ℤ) ≤ -a), if_pos (by omega : (0 : ℤ) ≤ a)]
    rw [neg_neg]

/-- Truncation toward zero commutes with negation. -/
theorem truncZ_neg (a : ℤ) (b : ℕ) :
    truncZ ⟨-a, b⟩ = -truncZ ⟨a, b⟩ := by
  rcases lt_trichotomy a 0 with h | h | h
  · unfold truncZ
    dsimp only
    rw [if_pos (by omega : (0 : ℤ) ≤ -a), if_neg (by omega : ¬ (0 : ℤ) ≤ a)]
    rw [show (-a).toNat = a.natAbs by omega, neg_neg]
  · subst h
    norm_num [truncZ]
  · unfold truncZ
    dsimp only
    rw [if_neg (by omega : ¬ (0 : ℤ) ≤ -a), if_pos (by omega : (0 : ℤ) ≤ a)]
    rw [show (-a).natAbs = a.toNat by omega]

/-- toRadians commutes with negation of the fixed-point phase. -/
theorem toRadiansM_neg (p : ℤ) :
    toRadiansM (-p) = ⟨-(toRadiansM p).num, (toRadiansM p).den⟩ := by
  show fl32 (Rq.mul (fl32 (Rq.mul (Rq.ofInt (-p)) piF32)) ⟨1, 32768⟩) = _
  rw [show Rq.mul (Rq.ofInt (-p)) piF32 = ⟨-(p * 13176795), 1 * 4194304⟩ by
    show Rq.mk (-p * 13176795) (1 * 4194304) = _
    rw [neg_mul]]
  rw [fl32_neg (p * 13176795) (1 * 4194304)]
  rw [show Rq.mul ⟨-(fl32 ⟨p * 13176795, 1 * 4194304⟩).num,
        (fl32 ⟨p * 13176795, 1 * 4194304⟩).den⟩ ⟨1, 32768⟩ =
      ⟨-((fl32 ⟨p * 13176795, 1 * 4194304⟩).num * 1),
        (fl32 ⟨p * 13176795, 1 * 4194304⟩).den * 32768⟩ by
    show Rq.mk (-(fl32 ⟨p * 13176795, 1 * 4194304⟩).num * 1) _ = _
    rw [neg_mul]]
  rw [fl32_neg ((fl32 ⟨p * 13176795, 1 * 4194304⟩).num * 1)
    ((fl32 ⟨p * 13176795, 1 * 4194304⟩).den * 32768)]
  rfl

/-- fromRadians commutes with negation of the radian value. -/
theorem fromRadiansM_neg (n : ℤ) (d : ℕ) :
    fromRadiansM ⟨-n, d⟩ = -fromRadiansM ⟨n, d⟩ := by
  show truncZ (fl32 (Rq.divPos (fl32 (Rq.mul ⟨-n, d⟩ ⟨32768, 1⟩)) piF32)) = _
  rw [show Rq.mul (⟨-n, d⟩ : Rq) ⟨32768, 1⟩ = ⟨-(n * 32768), d * 1⟩ by
    show Rq.mk (-n * 32768) (d * 1) = _
    rw [neg_mul]]
  rw [fl32_neg (n * 32768) (d * 1)]
  rw [show Rq.divPos ⟨-(fl32 ⟨n * 32768, d * 1⟩).num,
        (fl32 ⟨n * 32768, d * 1⟩).den⟩ piF32 =
      ⟨-((fl32 ⟨n * 32768, d * 1⟩).num * ((4194304 : ℕ) : ℤ)),
        (fl32 ⟨n * 32768, d * 1⟩).den * (13176795 : ℤ).toNat⟩ by
    show Rq.mk (-(fl32 ⟨n * 32768, d * 1⟩).num * ((4194304 : ℕ) : ℤ)) _ = _
    rw [neg_mul]
    rfl]
  rw [fl32_neg ((fl32 ⟨n * 32768, d * 1⟩).num * ((4194304 : ℕ) : ℤ))
    ((fl32 ⟨n * 32768, d * 1⟩).den * (13176795 : ℤ).toNat)]
  rw [truncZ_neg]
  rfl

/-- The whole phase round trip is odd. -/
theorem phaseRoundTrip_neg (p : ℤ) :
    phaseRoundTrip (-p) = -phaseRoundTrip p := by
  show fromRadiansM (toRadiansM (-p)) = -fromRadiansM (toRadiansM p)
  rw [toRadiansM_neg, fromRadiansM_neg]

/-- C8 (amended).  The helpers compose to the identity only up to one
unit of the 16-bit fixed-point phase: for every int16 input the round
trip lands within 1 of the input.  (The exact round-trip equation of the
spec fails: see the counterexample at p = 23.) -/
theorem claim_C8_round_trip (p : ℤ) (h1 : -32768 ≤ p) (h2 : p ≤ 32767) :
    p - 1 ≤ phaseRoundTrip p ∧ phaseRoundTrip p ≤ p + 1 := by
  rcases lt_trichotomy p 0 with hn | h0 | hp
  · have hk : p = -(((-p).toNat : ℤ)) := by omega
    have hk1 : 1 ≤ (-p).toNat := by omega
    have hk2 : (-p).toNat ≤ 32768 := by omega
    have hr := roundTrip_pos (-p).toNat hk1 hk2
    rw [hk, phaseRoundTrip_neg]
    omega
  · subst h0
    have hz : phaseRoundTrip 0 = 0 := by decide
    rw [hz]
    omega
  · have hk1 : 1 ≤ p.toNat := by omega
    have hk2 : p.toNat ≤ 32768 := by omega
    have hr := roundTrip_pos p.toNat hk1 hk2
    have hpe : (p.toNat : ℤ) = p := by omega
    rw [hpe] at hr
    omega

/-- Witness for C8 at p = 23 (where the round trip returns 22). -/
theorem claim_C8_round_trip_witness :
    -32768 ≤ (23 : ℤ) ∧ (23 : ℤ) - 1 ≤ phaseRoundTrip 23 ∧
      phaseRoundTrip 23 ≤ 23 + 1 :=
  ⟨by decide, (claim_C8_round_trip 23 (by decide) (by decide)).1,
    (claim_C8_round_trip 23 (by decide) (by decide)).2⟩

/-- C8 counterexample.  The fixed-point phase 23 maps to a radian value
inside [-pi, pi] (about 0.0022), yet the round trip returns 22, not 23:
the two helpers use 32768/pi scalings whose f32 roundings do not cancel,
and the final (int16_t) cast truncates toward zero. -/
theorem claim_C8_counterexample :
    phaseRoundTrip 23 ≠ 23 ∧
    -Real.pi ≤ ((toRadiansM 23).val : ℝ) ∧
    ((toRadiansM 23).val : ℝ) ≤ Real.pi := by
  have hv : (toRadiansM 23).val = 9470821 / 4294967296 := by
    rw [(by decide : toRadiansM 23 = ⟨9470821, 4294967296⟩)]
    norm_num [Rq.val]
  have hpi := Real.pi_gt_three
  refine ⟨by decide, ?_, ?_⟩
  · rw [hv]
    push_cast
    nlinarith
  · rw [hv]
    push_cast
    nlinarith

/-- Fold invariance. -/
theorem foldl_inv {α β : Type} (P : α → Prop) (f : α → β → α)
    (h : ∀ a b, P a → P (f a b)) :
    ∀ (l : List β) (a : α), P a → P (l.foldl f a) := by
  intro l
  induction l with
  | nil => intro a ha; exact ha
  | cons x t ih => intro a ha; exact ih (f a x) (h a x ha)

/-- One cell step keeps both peak-index variables in band or untouched
at their zero initialization. -/
theorem cellStep_ranges (inp : ComputeIn) (a r : ℕ) (acc : CellAcc)
    (h : (acc.breathPeakIdx = 0 ∨
        (3 ≤ acc.breathPeakIdx ∧ acc.breathPeakIdx < 50)) ∧
      (acc.heartPeakIdx = 0 ∨
        (68 ≤ acc.heartPeakIdx ∧ acc.heartPeakIdx < 128))) :
    ((vsCellStep inp a r acc).breathPeakIdx = 0 ∨
      (3 ≤ (vsCellStep inp a r acc).breathPeakIdx ∧
        (vsCellStep inp a r acc).breathPeakIdx < 50)) ∧
    ((vsCellStep inp a r acc).heartPeakIdx = 0 ∨
      (68 ≤ (vsCellStep inp a r acc).heartPeakIdx ∧
        (vsCellStep inp a r acc).heartPeakIdx < 128)) := by
  have R : ∀ (s : ℤ → Rq) (p : ℕ), (p = 0 ∨ (68 ≤ p ∧ p < 128)) →
      (scan3 s VS_HEART_INDEX_START
          (VS_HEART_INDEX_END - VS_HEART_INDEX_START) p = 0 ∨
        (68 ≤ scan3 s VS_HEART_INDEX_START
            (VS_HEART_INDEX_END - VS_HEART_INDEX_START) p ∧
          scan3 s VS_HEART_INDEX_START
            (VS_HEART_INDEX_END - VS_HEART_INDEX_START) p < 128)) := by
    intro s p hp
    rcases scan3_mem s VS_HEART_INDEX_START
        (VS_HEART_INDEX_END - VS_HEART_INDEX_START) p with h1 | h1
    · rw [h1]; exact hp
    · right
      simp only [VS_HEART_INDEX_START, VS_HEART_INDEX_END] at h1 ⊢
      omega
  unfold vsCellStep
  dsimp only
  constructor
  · rcases scan3_mem (fun i => inp.spectrum a r i) VS_BREATH_INDEX_START
        (VS_BREATH_INDEX_END - VS_BREATH_INDEX_START) acc.breathPeakIdx
      with h1 | h1
    · rw [h1]; exact h.1
    · right
      simp only [VS_BREATH_INDEX_START, VS_BREATH_INDEX_END] at h1 ⊢
      omega
  · exact R _ _ (R _ _ (R _ _ h.2))

/-- The per-cell loop leaves each peak index at its zero initialization
or inside its scan band. -/
theorem cellLoop_ranges (inp : ComputeIn) :
    ((vsCellLoop inp).breathPeakIdx = 0 ∨
      (3 ≤ (vsCellLoop inp).breathPeakIdx ∧
        (vsCellLoop inp).breathPeakIdx < 50)) ∧
    ((vsCellLoop inp).heartPeakIdx = 0 ∨
      (68 ≤ (vsCellLoop inp).heartPeakIdx ∧
        (vsCellLoop inp).heartPeakIdx < 128)) := by
  unfold vsCellLoop
  refine foldl_inv _ _ (fun acc a ha =>
    foldl_inv _ _ (fun acc2 r hr => cellStep_ranges inp a r acc2 hr) _ acc ha)
    _ _ ⟨Or.inl rfl, Or.inl rfl⟩

/-- The breathing decision stays at zero or inside the breath band. -/
theorem breathDecision_range (acc : CellAcc)
    (h : acc.breathPeakIdx = 0 ∨
      (3 ≤ acc.breathPeakIdx ∧ acc.breathPeakIdx < 50)) :
    vsBreathDecision acc = 0 ∨
      (3 ≤ vsBreathDecision acc ∧ vsBreathDecision acc < 50) := by
  have R : ∀ (s : ℤ → Rq) (p : ℕ), (p = 0 ∨ (3 ≤ p ∧ p < 50)) →
      (scan3 s VS_BREATH_INDEX_START
          (VS_BREATH_INDEX_END - VS_BREATH_INDEX_START) p = 0 ∨
        (3 ≤ scan3 s VS_BREATH_INDEX_START
            (VS_BREATH_INDEX_END - VS_BREATH_INDEX_START) p ∧
          scan3 s VS_BREATH_INDEX_START
            (VS_BREATH_INDEX_END - VS_BREATH_INDEX_START) p < 50)) := by
    intro s p hp
    rcases scan3_mem s VS_BREATH_INDEX_START
        (VS_BREATH_INDEX_END - VS_BREATH_INDEX_START) p with h1 | h1
    · rw [h1]; exact hp
    · right
      simp only [VS_BREATH_INDEX_START, VS_BREATH_INDEX_END] at h1 ⊢
      omega
  unfold vsBreathDecision
  dsimp only
  exact R _ _ (R _ _ h)

/-- The heart histogram vote stays at zero or inside the heart band. -/
theorem heartHist_range (acc : CellAcc)
    (h : acc.heartPeakIdx = 0 ∨
      (68 ≤ acc.heartPeakIdx ∧ acc.heartPeakIdx < 128)) :
    vsHeartHist acc = 0 ∨
      (68 ≤ vsHeartHist acc ∧ vsHeartHist acc < 128) := by
  unfold vsHeartHist
  dsimp only
  rcases scan5_mem (fun k => Rq.ofNat
      (count45 (zeroEdgeCells acc.heartRateArray) k +
        count45 (zeroEdgeCells acc.heartRateSub1Array) k))
      VS_HEART_INDEX_START (VS_HEART_INDEX_END - VS_HEART_INDEX_START)
      acc.heartPeakIdx with h1 | h1
  · rw [h1]; exact h
  · right
    simp only [VS_HEART_INDEX_START, VS_HEART_INDEX_END] at h1 ⊢
    omega

/-- Every extracted present peak, and the final index variable, is zero
or inside the heart band. -/
theorem presentPeaks_ranges (storage : ℤ → Rq) (p0 : ℕ)
    (hp : p0 = 0 ∨ (68 ≤ p0 ∧ p0 < 128)) :
    (∀ x ∈ (vsPresentPeaks storage p0).1, x = 0 ∨ (68 ≤ x ∧ x < 128)) ∧
    ((vsPresentPeaks storage p0).2 = 0 ∨
      (68 ≤ (vsPresentPeaks storage p0).2 ∧
        (vsPresentPeaks storage p0).2 < 128)) := by
  unfold vsPresentPeaks
  have key := foldl_inv (fun (st : (ℤ → Rq) × (List ℕ × ℕ)) =>
      (∀ x ∈ st.2.1, x = 0 ∨ (68 ≤ x ∧ x < 128)) ∧
      (st.2.2 = 0 ∨ (68 ≤ st.2.2 ∧ st.2.2 < 128)))
    (fun (st : (ℤ → Rq) × (List ℕ × ℕ)) _ =>
      let pk := scan3 st.1 VS_HEART_INDEX_START
        (VS_HEART_INDEX_END - VS_HEART_INDEX_START) st.2.2
      (zero3 st.1 pk, (st.2.1 ++ [pk], pk)))
    (fun st i hst => by
      dsimp only
      have hpk : scan3 st.1 VS_HEART_INDEX_START
          (VS_HEART_INDEX_END - VS_HEART_INDEX_START) st.2.2 = 0 ∨
          (68 ≤ scan3 st.1 VS_HEART_INDEX_START
              (VS_HEART_INDEX_END - VS_HEART_INDEX_START) st.2.2 ∧
            scan3 st.1 VS_HEART_INDEX_START
              (VS_HEART_INDEX_END - VS_HEART_INDEX_START) st.2.2 < 128) := by
        rcases scan3_mem st.1 VS_HEART_INDEX_START
            (VS_HEART_INDEX_END - VS_HEART_INDEX_START) st.2.2 with h1 | h1
        · rw [h1]; exact hst.2
        · right
          simp only [VS_HEART_INDEX_START, VS_HEART_INDEX_END] at h1 ⊢
          omega
      refine ⟨?_, hpk⟩
      intro x hx
      rcases List.mem_append.mp hx with hx | hx
      · exact hst.1 x hx
      · rw [List.mem_singleton.mp hx]
        exact hpk)
    (List.range 5) (storage, ([], p0))
    ⟨fun x hx => absurd hx (List.not_mem_nil x), hp⟩
  exact key

/-- The candidate selection yields zero or an in-band index. -/
theorem candidate_range (pks : List ℕ) (p3 hh : ℕ)
    (hp : ∀ x ∈ pks, x = 0 ∨ (68 ≤ x ∧ x < 128))
    (hhh : hh = 0 ∨ (68 ≤ hh ∧ hh < 128)) :
    vsCandidate pks p3 hh = 0 ∨
      (68 ≤ vsCandidate pks p3 hh ∧ vsCandidate pks p3 hh < 128) := by
  have hg : ∀ i : ℕ, pks.getD i 0 = 0 ∨
      (68 ≤ pks.getD i 0 ∧ pks.getD i 0 < 128) := by
    intro i
    by_cases hi : i < pks.length
    · rw [List.getD_eq_getElem pks 0 hi]
      exact hp _ (List.getElem_mem hi)
    · rw [List.getD_eq_default pks 0 (le_of_not_lt hi)]
      exact Or.inl rfl
  unfold vsCandidate
  dsimp only
  split
  · exact hg _
  · exact hhh

/-- The jump limiter keeps the final index below the heart band upper
end whenever both its inputs are. -/
theorem vsJumpLimit_lt (cand prev0 L : ℕ) (hc : cand < 128)
    (hp : prev0 < 128) : vsJumpLimit cand prev0 L < 128 := by
  unfold vsJumpLimit distN VS_HEART_RATE_JUMP_LIMIT VS_MASK_LOOP_NO
  split_ifs <;> omega

/-- Every slot of the updated history is below 128 when the new index
and all four old slots are. -/
theorem hist_lt (L hF p0 p1 p2 p3 : ℕ)
    (h : hF < 128 ∧ p0 < 128 ∧ p1 < 128 ∧ p2 < 128 ∧ p3 < 128) :
    (vsHistoryUpdate L hF p0 p1 p2 p3).1 < 128 ∧
    (vsHistoryUpdate L hF p0 p1 p2 p3).2.1 < 128 ∧
    (vsHistoryUpdate L hF p0 p1 p2 p3).2.2.1 < 128 ∧
    (vsHistoryUpdate L hF p0 p1 p2 p3).2.2.2 < 128 := by
  unfold vsHistoryUpdate
  split_ifs
  · exact ⟨h.1, h.2.1, h.2.2.1, h.2.2.2.1⟩
  · exact ⟨by norm_num, by norm_num, by norm_num, by norm_num⟩
  · exact ⟨h.2.1, h.2.2.1, h.2.2.2.1, h.2.2.2.2⟩

/-- The assembled output publishes rates that are scaled band or zero
indices. -/
theorem assemble_rateParts (st : VsState) (b h : ℕ) (d : Rq)
    (hb : b = 0 ∨ (3 ≤ b ∧ b < 50)) (hh : h < 128) :
    (∃ b2 : ℕ, (b2 = 0 ∨ (3 ≤ b2 ∧ b2 < 50)) ∧
      (vsAssembleOutput st b h d).breathingRate.val = (b2 : ℚ) * (441 / 500)) ∧
    (∃ h2 : ℕ, h2 < 128 ∧
      (vsAssembleOutput st b h d).heartRate.val = (h2 : ℚ) * (441 / 500)) := by
  unfold vsAssembleOutput
  by_cases hf : st.indicateNoTarget = true
  · rw [if_pos hf]
    exact ⟨⟨0, Or.inl rfl, by norm_num [zeroOutput, Rq.val_zero]⟩,
      ⟨0, by norm_num, by norm_num [zeroOutput, Rq.val_zero]⟩⟩
  · rw [if_neg hf]
    by_cases hl : st.vsLoop < VS_MASK_LOOP_NO
    · refine ⟨⟨0, Or.inl rfl, ?_⟩, ⟨0, by norm_num, ?_⟩⟩ <;>
        · dsimp only
          rw [if_pos hl]
          norm_num [Rq.val_zero]
    · refine ⟨⟨b, hb, ?_⟩, ⟨h, hh, ?_⟩⟩ <;>
        · dsimp only
          rw [if_neg hl]
          norm_num [Rq.val_mul, Rq.val_ofNat, kBpm_val]

/-- The decision stage preserves the band invariant: its published rates
are scaled band indices and the refreshed history stays below 128. -/
theorem compute_rateInv (st : VsState) (inp : ComputeIn) (h : rateInv st) :
    rateInv (vsComputeVitalSign st inp) := by
  obtain ⟨h0, h1, h2, h3, _, _⟩ := h
  have hacc := cellLoop_ranges inp
  have hbf := breathDecision_range (vsCellLoop inp) hacc.1
  have hhh := heartHist_range (vsCellLoop inp) hacc.2
  have hpk := presentPeaks_ranges (vsCellLoop inp).heartStorage
    (vsHeartHist (vsCellLoop inp)) hhh
  have hcand := candidate_range
    (vsPresentPeaks (vsCellLoop inp).heartStorage
      (vsHeartHist (vsCellLoop inp))).1
    st.prevHeartPeak3 (vsHeartHist (vsCellLoop inp)) hpk.1 hhh
  have hcand128 : vsCandidate
      (vsPresentPeaks (vsCellLoop inp).heartStorage
        (vsHeartHist (vsCellLoop inp))).1
      st.prevHeartPeak3 (vsHeartHist (vsCellLoop inp)) < 128 := by
    rcases hcand with hc | hc
    · omega
    · omega
  have hfin := vsJumpLimit_lt _ st.prevHeartPeak0 st.vsLoop hcand128 h0
  have hhist := hist_lt st.vsLoop _ st.prevHeartPeak0 st.prevHeartPeak1
    st.prevHeartPeak2 st.prevHeartPeak3 ⟨hfin, h0, h1, h2, h3⟩
  have hasm := assemble_rateParts st
    (vsBreathDecision (vsCellLoop inp))
    (vsJumpLimit
      (vsCandidate
        (vsPresentPeaks (vsCellLoop inp).heartStorage
          (vsHeartHist (vsCellLoop inp))).1
        st.prevHeartPeak3 (vsHeartHist (vsCellLoop inp)))
      st.prevHeartPeak0 st.vsLoop)
    (vsComputeDeviation (fun i => inp.devSeries (59 + i)) 40) hbf hfin
  unfold vsComputeVitalSign rateInv
  dsimp only
  exact ⟨hhist.1, hhist.2.1, hhist.2.2.1, hhist.2.2.2, hasm.1, hasm.2⟩

theorem stageData_prevOut (st : VsState) (inp : FrameIn) (cube : ℕ → ℤ × ℤ) :
    (vsStageData st inp cube).prevHeartPeak0 = st.prevHeartPeak0 ∧
    (vsStageData st inp cube).prevHeartPeak1 = st.prevHeartPeak1 ∧
    (vsStageData st inp cube).prevHeartPeak2 = st.prevHeartPeak2 ∧
    (vsStageData st inp cube).prevHeartPeak3 = st.prevHeartPeak3 ∧
    (vsStageData st inp cube).output = st.output := by
  unfold vsStageData
  dsimp only
  split
  · exact ⟨rfl, rfl, rfl, rfl, rfl⟩
  · exact ⟨rfl, rfl, rfl, rfl, rfl⟩

theorem stageWrap_prevOut (st : VsState) :
    (vsStageWrap st).prevHeartPeak0 = st.prevHeartPeak0 ∧
    (vsStageWrap st).prevHeartPeak1 = st.prevHeartPeak1 ∧
    (vsStageWrap st).prevHeartPeak2 = st.prevHeartPeak2 ∧
    (vsStageWrap st).prevHeartPeak3 = st.prevHeartPeak3 ∧
    (vsStageWrap st).output = st.output := by
  unfold vsStageWrap
  split
  · exact ⟨rfl, rfl, rfl, rfl, rfl⟩
  · exact ⟨rfl, rfl, rfl, rfl, rfl⟩

theorem rateInv_of_eq (s t : VsState)
    (e0 : s.prevHeartPeak0 = t.prevHeartPeak0)
    (e1 : s.prevHeartPeak1 = t.prevHeartPeak1)
    (e2 : s.prevHeartPeak2 = t.prevHeartPeak2)
    (e3 : s.prevHeartPeak3 = t.prevHeartPeak3)
    (eo : s.output = t.output) (h : rateInv t) : rateInv s := by
  unfold rateInv at *
  rw [e0, e1, e2, e3, eo]
  exact h

theorem withLoop_prevOut (s : VsState) (n : ℕ) :
    ({ s with vsLoop := n } : VsState).prevHeartPeak0 = s.prevHeartPeak0 ∧
    ({ s with vsLoop := n } : VsState).prevHeartPeak1 = s.prevHeartPeak1 ∧
    ({ s with vsLoop := n } : VsState).prevHeartPeak2 = s.prevHeartPeak2 ∧
    ({ s with vsLoop := n } : VsState).prevHeartPeak3 = s.prevHeartPeak3 ∧
    ({ s with vsLoop := n } : VsState).output = s.output :=
  ⟨rfl, rfl, rfl, rfl, rfl⟩

theorem stageCompute_rateInv (st : VsState) (inp : FrameIn)
    (h : rateInv st) : rateInv (vsStageCompute st inp) := by
  unfold vsStageCompute
  dsimp only
  split
  · exact rateInv_of_eq _ _ (withLoop_prevOut _ _).1 (withLoop_prevOut _ _).2.1
      (withLoop_prevOut _ _).2.2.1 (withLoop_prevOut _ _).2.2.2.1
      (withLoop_prevOut _ _).2.2.2.2 (compute_rateInv st inp.compute h)
  · exact h

theorem frameBody_rateInv (st : VsState) (inp : FrameIn) (cube : ℕ → ℤ × ℤ)
    (h : rateInv st) : rateInv (vsFrameBody st inp cube) := by
  unfold vsFrameBody
  refine stageCompute_rateInv _ inp ?_
  have h1 := stageData_prevOut st inp cube
  have h2 := stageWrap_prevOut (vsStageData st inp cube)
  exact rateInv_of_eq _ _ (h2.1.trans h1.1) (h2.2.1.trans h1.2.1)
    (h2.2.2.1.trans h1.2.2.1) (h2.2.2.2.1.trans h1.2.2.2.1)
    (h2.2.2.2.2.trans h1.2.2.2.2) h

set_option linter.unnecessarySeqFocus false in
theorem frame_rateInv (st : VsState) (inp : FrameIn) (h : rateInv st) :
    rateInv (vsProcessFrame st inp).2 := by
  unfold vsProcessFrame
  rcases hc : inp.cube with _ | c <;> by_cases hi : st.inited = false <;>
    by_cases he : st.cfgEnabled = false <;> simp [hi, he, hc] <;>
      first
      | exact h
      | exact frameBody_rateInv st inp c h

theorem loss_rateInv (st : VsState) (b : Bool) (h : rateInv st) :
    rateInv (vsHandleTargetLoss st b).2 := by
  unfold vsHandleTargetLoss
  dsimp only
  split
  · split
    · exact rateInv_of_eq _ _ rfl rfl rfl rfl rfl h
    · exact rateInv_of_eq _ _ rfl rfl rfl rfl rfl h
  · exact rateInv_of_eq _ _ rfl rfl rfl rfl rfl h

theorem init_rateInv (enabled : Bool) : rateInv (vsInitState enabled) := by
  unfold rateInv
  refine ⟨by show (0:ℕ) < 128; norm_num, by show (0:ℕ) < 128; norm_num,
    by show (0:ℕ) < 128; norm_num, by show (0:ℕ) < 128; norm_num,
    ⟨0, Or.inl rfl, ?_⟩, ⟨0, by norm_num, ?_⟩⟩ <;>
    · show Rq.zero.val = _
      norm_num [Rq.val_zero]

/-- C4 (amended).  Along every event run from a fresh init, the
published breathing rate is K_BPM times an index that is zero or inside
[3, 50), and the published heart rate is K_BPM times an index below 128.
(The original claim restricted the heart index to [68, 128) into {0}; the
jump limiter can publish out-of-band indices such as 56: see the
counterexample.) -/
theorem claim_C4_bands (enabled : Bool) (evs : List VsEvent) :
    (∃ b : ℕ, (b = 0 ∨ (3 ≤ b ∧ b < 50)) ∧
      (vsRun (vsInitState enabled) evs).output.breathingRate.val =
        (b : ℚ) * (441 / 500)) ∧
    (∃ h : ℕ, h < 128 ∧
      (vsRun (vsInitState enabled) evs).output.heartRate.val =
        (h : ℚ) * (441 / 500)) := by
  have hinv := vsRun_invariant rateInv frame_rateInv loss_rateInv evs
    (vsInitState enabled) (init_rateInv enabled)
  exact ⟨hinv.2.2.2.2.1, hinv.2.2.2.2.2⟩

theorem lt_zero_of_num (t : Rq) (h : t.num = 0) : ¬ Rq.lt Rq.zero t := by
  unfold Rq.lt Rq.zero
  dsimp only
  rw [h]
  omega

theorem tap3_num (s : ℤ → Rq) (k : ℕ)
    (h1 : (s (k : ℤ)).num = 0) (h2 : (s ((k : ℤ) + 1)).num = 0)
    (h3 : (s ((k : ℤ) - 1)).num = 0) : (tap3 s k).num = 0 := by
  unfold tap3 Rq.add
  dsimp only
  rw [h1, h2, h3]
  ring

theorem toneS_zero (x : ℤ) (h1 : x ≠ 70) (h2 : x ≠ 140) :
    toneS x = Rq.zero := by
  unfold toneS
  rw [if_neg (by tauto)]

theorem toneS_den (x : ℤ) : (toneS x).den = 1 := by
  unfold toneS
  split <;> rfl

/-- A 3-tap scan over data of numerically zero values returns its
carried index. -/
theorem scan3_numZero (s : ℤ → Rq) (lo n p0 : ℕ)
    (h : ∀ i : ℤ, (s i).num = 0) : scan3 s lo n p0 = p0 := by
  unfold scan3
  apply scanGo_const
  intro k _
  exact lt_zero_of_num _ (tap3_num s k (h _) (h _) (h _))

theorem zero3_num_of (s : ℤ → Rq) (h : ∀ i, (s i).num = 0) (p : ℕ) :
    ∀ i, ((zero3 s p) i).num = 0 := by
  intro i
  unfold zero3
  split
  · rfl
  · exact h i

theorem zero3_deltaH_num : ∀ i : ℤ, ((zero3 deltaH 69) i).num = 0 := by
  intro i
  unfold zero3 deltaH
  split_ifs with h1 h2
  · rfl
  · exfalso
    omega
  · rfl

/-- The heart scan on the tone harmonic product finds index 69 whatever
index it carries in. -/
theorem scan3_deltaH (p0 : ℕ) :
    scan3 deltaH VS_HEART_INDEX_START
      (VS_HEART_INDEX_END - VS_HEART_INDEX_START) p0 = 69 := by
  have step : ∀ (f : ℕ → Rq) (k : ℕ) (t : List ℕ) (bi : ℕ) (best : Rq),
      scanGo f (k :: t) bi best =
        if Rq.lt best (f k) then scanGo f t k (f k)
        else scanGo f t bi best := fun f k t bi best => rfl
  show scanGo (tap3 deltaH) (List.range' 68 60) p0 Rq.zero = 69
  rw [show List.range' 68 60 = 68 :: 69 :: List.range' 70 58 from rfl]
  rw [step, if_neg (by decide), step, if_pos (by decide)]
  apply scanGo_const
  intro k hk
  have hk2 := List.mem_range'_1.mp hk
  rcases (by omega : k = 70 ∨ k = 71 ∨ 72 ≤ k) with rfl | rfl | hk3
  · decide
  · decide
  · have ht : (tap3 deltaH k).num = 0 := by
      refine tap3_num _ _ ?_ ?_ ?_ <;>
        · unfold deltaH
          rw [if_neg (by omega)]
          rfl
    have h69 : (tap3 deltaH 69).num = 1 := by decide
    unfold Rq.lt
    rw [ht, h69]
    have hd : (0 : ℤ) ≤ ((tap3 deltaH k).den : ℤ) := Int.natCast_nonneg _
    omega

/-- A 3-tap scan whose in-band taps are numerically zero returns its
carried index. -/
theorem scan3_boundedZero (s : ℤ → Rq) (lo n p0 : ℕ)
    (h : ∀ k : ℕ, lo ≤ k → k < lo + n → (tap3 s k).num = 0) :
    scan3 s lo n p0 = p0 := by
  unfold scan3
  apply scanGo_const
  intro k hk
  have hb := List.mem_range'_1.mp hk
  exact lt_zero_of_num _ (h k hb.1 hb.2)

/-- One cell of the steady tone: the breath scan stays at zero, the
three heart scans land on 69, the harmonic product adds one to the heart
storage at bin 70, and slot m of each per-cell array records its index. -/
theorem cellStep_tone (a r : ℕ) :
    vsCellStep toneComputeIn a r (toneAccN (r + a * 5)) =
      toneAccN (r + a * 5 + 1) := by
  have hd0 : (fun i : ℤ => if 0 ≤ i ∧ i < 128 then
      Rq.mul (toneS (2 * i)) (toneS i) else Rq.zero) = deltaH := by
    funext i
    unfold deltaH
    by_cases h70 : i = 70
    · subst h70
      rw [if_pos (by norm_num), if_pos rfl]
      rfl
    · rw [if_neg h70]
      by_cases hr : (0 : ℤ) ≤ i ∧ i < 128
      · rw [if_pos hr]
        rw [toneS_zero i h70 (by omega)]
        show Rq.mk ((toneS (2 * i)).num * 0) ((toneS (2 * i)).den * 1) = Rq.zero
        rw [mul_zero, mul_one, toneS_den]
        rfl
      · rw [if_neg hr]
  have hzB : ∀ k : ℕ, VS_BREATH_INDEX_START ≤ k →
      k < VS_BREATH_INDEX_START +
        (VS_BREATH_INDEX_END - VS_BREATH_INDEX_START) →
      (tap3 toneS k).num = 0 := by
    intro k h1 h2
    simp only [VS_BREATH_INDEX_START, VS_BREATH_INDEX_END] at h1 h2
    refine tap3_num _ _ ?_ ?_ ?_ <;>
      · unfold toneS
        rw [if_neg (by omega)]
        rfl
  have hd0p : ∀ i : ℤ, (if 0 ≤ i ∧ i < 128 then
      Rq.mul (toneS (2 * i)) (toneS i) else Rq.zero) = deltaH i :=
    fun i => congrFun hd0 i
  unfold vsCellStep
  simp only [toneComputeIn]
  rw [hd0]
  simp only [hd0p]
  simp only [toneAccN]
  rw [scan3_boundedZero toneS VS_BREATH_INDEX_START
    (VS_BREATH_INDEX_END - VS_BREATH_INDEX_START) 0 hzB]
  rw [scan3_deltaH]
  rw [scan3_numZero (zero3 deltaH 69) VS_HEART_INDEX_START
    (VS_HEART_INDEX_END - VS_HEART_INDEX_START) 69 zero3_deltaH_num]
  rw [scan3_numZero (zero3 (zero3 deltaH 69) 69) VS_HEART_INDEX_START
    (VS_HEART_INDEX_END - VS_HEART_INDEX_START) 69
    (zero3_num_of _ zero3_deltaH_num 69)]
  rw [CellAcc.mk.injEq]
  refine ⟨rfl, by rw [if_neg (Nat.succ_ne_zero _)], ?_, ?_, ?_, ?_, ?_, ?_⟩
  · funext c
    unfold updArr
    split <;> rfl
  · funext c
    unfold updArr
    by_cases hc : c = r + a * 5
    · rw [if_pos hc, if_pos (by omega)]
    · rw [if_neg hc]
      dsimp only
      split_ifs <;> omega
  · funext c
    unfold updArr
    by_cases hc : c = r + a * 5
    · rw [if_pos hc, if_pos (by omega)]
    · rw [if_neg hc]
      dsimp only
      split_ifs <;> omega
  · funext c
    unfold updArr
    by_cases hc : c = r + a * 5
    · rw [if_pos hc, if_pos (by omega)]
    · rw [if_neg hc]
      dsimp only
      split_ifs <;> omega
  · funext i
    split_ifs with h
    · rw [toneS_zero i (by omega) (by omega)]
      rfl
    · rfl
  · funext i
    by_cases h70 : i = (70 : ℤ)
    · subst h70
      rw [if_pos (by norm_num), if_pos rfl, if_pos rfl]
      unfold deltaH
      rw [if_pos rfl]
      show Rq.mk ((r + a * 5 : ℕ) * 1 + 1 * 1 : ℤ) (1 * 1) =
        Rq.mk ((r + a * 5 + 1 : ℕ) : ℤ) 1
      rw [Rq.mk.injEq]
      constructor
      · push_cast
        ring
      · rfl
    · rw [if_neg h70]
      by_cases hr : (68 : ℤ) ≤ i ∧ i < 128
      · rw [if_pos hr, if_neg h70]
        unfold deltaH
        rw [if_neg h70]
        rfl
      · rw [if_neg hr, if_neg h70]

theorem cellAccInit_eq_tone0 : cellAccInit = toneAccN 0 := by
  unfold cellAccInit toneAccN
  rw [CellAcc.mk.injEq]
  refine ⟨rfl, by rw [if_pos rfl], ?_, ?_, ?_, ?_, rfl, ?_⟩
  · rfl
  · funext c
    rw [if_neg (Nat.not_lt_zero c)]
  · funext c
    rw [if_neg (Nat.not_lt_zero c)]
  · funext c
    rw [if_neg (Nat.not_lt_zero c)]
  · funext i
    split
    · rfl
    · rfl

theorem foldl_cons_acc {α : Type} (f : α → ℕ → α) (k : ℕ) (t : List ℕ)
    (acc : α) : (k :: t).foldl f acc = t.foldl f (f acc k) := rfl

theorem inner_tone (a : ℕ) : ∀ (j r0 : ℕ), r0 + j ≤ 5 →
    (List.range' r0 j).foldl
      (fun acc2 r => vsCellStep toneComputeIn a r acc2)
      (toneAccN (r0 + a * 5)) = toneAccN (r0 + j + a * 5) := by
  intro j
  induction j with
  | zero => intro r0 h; rfl
  | succ m ih =>
    intro r0 h
    rw [List.range'_succ, foldl_cons_acc]
    rw [cellStep_tone a r0]
    rw [show r0 + a * 5 + 1 = (r0 + 1) + a * 5 from by ring]
    rw [ih (r0 + 1) (by omega)]
    exact congrArg toneAccN (by ring)

theorem outer_tone : ∀ (j a0 : ℕ), a0 + j ≤ 9 →
    (List.range' a0 j).foldl
      (fun acc a => (List.range 5).foldl
        (fun acc2 r => vsCellStep toneComputeIn a r acc2) acc)
      (toneAccN (a0 * 5)) = toneAccN ((a0 + j) * 5) := by
  intro j
  induction j with
  | zero => intro a0 h; rfl
  | succ m ih =>
    intro a0 h
    rw [List.range'_succ, foldl_cons_acc]
    have hin : (List.range 5).foldl
        (fun acc2 r => vsCellStep toneComputeIn a0 r acc2)
        (toneAccN (a0 * 5)) = toneAccN ((a0 + 1) * 5) := by
      rw [List.range_eq_range']
      rw [show a0 * 5 = 0 + a0 * 5 from by ring]
      rw [inner_tone a0 5 0 (by omega)]
      exact congrArg toneAccN (by ring)
    rw [hin, ih (a0 + 1) (by omega)]
    exact congrArg toneAccN (by ring)

theorem foldl_fixed {α β : Type} (f : α → β → α) (a : α)
    (h : ∀ b, f a b = a) : ∀ l : List β, l.foldl f a = a := by
  intro l
  induction l with
  | nil => rfl
  | cons x t ih =>
    rw [List.foldl_cons, h x]
    exact ih

/-- The whole per-cell loop of the steady tone. -/
theorem cellLoop_tone : vsCellLoop toneComputeIn = toneAccN 45 := by
  show (List.range 9).foldl
    (fun acc a => (List.range 5).foldl
      (fun acc2 r => vsCellStep toneComputeIn a r acc2) acc)
    cellAccInit = toneAccN 45
  rw [show List.range 9 = List.range' 0 9 from List.range_eq_range' 9,
    cellAccInit_eq_tone0,
    show toneAccN 0 = toneAccN (0 * 5) from rfl,
    outer_tone 9 0 (by omega)]

/-- One cell of silence leaves the locals untouched. -/
theorem cellStep_zero (a r : ℕ) :
    vsCellStep zeroComputeIn a r cellAccInit = cellAccInit := by
  have hz : ∀ i : ℤ, ((fun _ : ℤ => Rq.zero) i).num = 0 := fun _ => rfl
  have hzd : ∀ i : ℤ, ((fun i : ℤ => if 0 ≤ i ∧ i < 128 then
      Rq.mul Rq.zero Rq.zero else Rq.zero) i).num = 0 := by
    intro i
    dsimp only
    split <;> rfl
  unfold vsCellStep
  simp only [zeroComputeIn, cellAccInit]
  rw [scan3_numZero _ _ _ _ hz]
  rw [scan3_numZero _ _ _ _ hzd]
  rw [scan3_numZero _ _ _ _ (zero3_num_of _ hzd 0)]
  rw [scan3_numZero _ _ _ _ (zero3_num_of _ (zero3_num_of _ hzd 0) 0)]
  rw [CellAcc.mk.injEq]
  refine ⟨rfl, rfl, ?_, ?_, ?_, ?_, ?_, ?_⟩
  · funext c
    unfold updArr
    split <;> rfl
  · funext c
    unfold updArr
    split <;> rfl
  · funext c
    unfold updArr
    split <;> rfl
  · funext c
    unfold updArr
    split <;> rfl
  · funext i
    split_ifs <;> rfl
  · funext i
    split_ifs <;> rfl

/-- The whole per-cell loop of silence. -/
theorem cellLoop_zero : vsCellLoop zeroComputeIn = cellAccInit := by
  unfold vsCellLoop
  refine foldl_fixed _ _ (fun a0 => ?_) _
  exact foldl_fixed _ _ (fun r0 => cellStep_zero a0 r0) _

/-- The decision stage on the steady tone: breathing decision 0, heart
histogram vote 68, five present peaks at 69; the published index is the
jump-limited candidate, the history shifts accordingly. -/
theorem compute_tone (st : VsState) :
    vsComputeVitalSign st toneComputeIn = { st with
      breathHistIndex := 0,
      heartHistIndex := 68,
      prevHeartPeak0 := (vsHistoryUpdate st.vsLoop
        (vsJumpLimit (vsCandidate [69, 69, 69, 69, 69] st.prevHeartPeak3 68)
          st.prevHeartPeak0 st.vsLoop)
        st.prevHeartPeak0 st.prevHeartPeak1 st.prevHeartPeak2
        st.prevHeartPeak3).1,
      prevHeartPeak1 := (vsHistoryUpdate st.vsLoop
        (vsJumpLimit (vsCandidate [69, 69, 69, 69, 69] st.prevHeartPeak3 68)
          st.prevHeartPeak0 st.vsLoop)
        st.prevHeartPeak0 st.prevHeartPeak1 st.prevHeartPeak2
        st.prevHeartPeak3).2.1,
      prevHeartPeak2 := (vsHistoryUpdate st.vsLoop
        (vsJumpLimit (vsCandidate [69, 69, 69, 69, 69] st.prevHeartPeak3 68)
          st.prevHeartPeak0 st.vsLoop)
        st.prevHeartPeak0 st.prevHeartPeak1 st.prevHeartPeak2
        st.prevHeartPeak3).2.2.1,
      prevHeartPeak3 := (vsHistoryUpdate st.vsLoop
        (vsJumpLimit (vsCandidate [69, 69, 69, 69, 69] st.prevHeartPeak3 68)
          st.prevHeartPeak0 st.vsLoop)
        st.prevHeartPeak0 st.prevHeartPeak1 st.prevHeartPeak2
        st.prevHeartPeak3).2.2.2,
      output := vsAssembleOutput st 0
        (vsJumpLimit (vsCandidate [69, 69, 69, 69, 69] st.prevHeartPeak3 68)
          st.prevHeartPeak0 st.vsLoop)
        (vsComputeDeviation (fun i => toneComputeIn.devSeries (59 + i)) 40) } := by
  unfold vsComputeVitalSign
  dsimp only
  rw [cellLoop_tone]
  rw [show vsBreathDecision (toneAccN 45) = 0 from by decide]
  rw [show vsHeartHist (toneAccN 45) = 68 from by decide]
  rw [show vsPresentPeaks (toneAccN 45).heartStorage 68 =
    ([69, 69, 69, 69, 69], 69) from by decide]

/-- The decision stage on silence: both votes stay at zero and the five
present peaks are zero; the published index is the jump-limited zero
candidate. -/
theorem compute_zero (st : VsState) :
    vsComputeVitalSign st zeroComputeIn = { st with
      breathHistIndex := 0,
      heartHistIndex := 0,
      prevHeartPeak0 := (vsHistoryUpdate st.vsLoop
        (vsJumpLimit (vsCandidate [0, 0, 0, 0, 0] st.prevHeartPeak3 0)
          st.prevHeartPeak0 st.vsLoop)
        st.prevHeartPeak0 st.prevHeartPeak1 st.prevHeartPeak2
        st.prevHeartPeak3).1,
      prevHeartPeak1 := (vsHistoryUpdate st.vsLoop
        (vsJumpLimit (vsCandidate [0, 0, 0, 0, 0] st.prevHeartPeak3 0)
          st.prevHeartPeak0 st.vsLoop)
        st.prevHeartPeak0 st.prevHeartPeak1 st.prevHeartPeak2
        st.prevHeartPeak3).2.1,
      prevHeartPeak2 := (vsHistoryUpdate st.vsLoop
        (vsJumpLimit (vsCandidate [0, 0, 0, 0, 0] st.prevHeartPeak3 0)
          st.prevHeartPeak0 st.vsLoop)
        st.prevHeartPeak0 st.prevHeartPeak1 st.prevHeartPeak2
        st.prevHeartPeak3).2.2.1,
      prevHeartPeak3 := (vsHistoryUpdate st.vsLoop
        (vsJumpLimit (vsCandidate [0, 0, 0, 0, 0] st.prevHeartPeak3 0)
          st.prevHeartPeak0 st.vsLoop)
        st.prevHeartPeak0 st.prevHeartPeak1 st.prevHeartPeak2
        st.prevHeartPeak3).2.2.2,
      output := vsAssembleOutput st 0
        (vsJumpLimit (vsCandidate [0, 0, 0, 0, 0] st.prevHeartPeak3 0)
          st.prevHeartPeak0 st.vsLoop)
        (vsComputeDeviation (fun i => zeroComputeIn.devSeries (59 + i)) 40) } := by
  unfold vsComputeVitalSign
  dsimp only
  rw [cellLoop_zero]
  rw [show vsBreathDecision cellAccInit = 0 from by decide]
  rw [show vsHeartHist cellAccInit = 0 from by decide]
  rw [show vsPresentPeaks cellAccInit.heartStorage 0 =
    ([0, 0, 0, 0, 0], 0) from by decide]

theorem frame_body_of (st : VsState) (cin : ComputeIn)
    (hI : st.inited = true) (hE : st.cfgEnabled = true) :
    (vsProcessFrame st (mkFrame cin)).2 =
      vsFrameBody st (mkFrame cin) zeroCube := by
  unfold vsProcessFrame
  rw [if_neg (by simp [hI])]
  show (if st.cfgEnabled = false then ((VITALSIGNS_EOK : ℤ), st)
    else ((VITALSIGNS_EOK : ℤ), vsFrameBody st (mkFrame cin) zeroCube)).2 = _
  rw [if_neg (by simp [hE])]

/-- The data stage below the frame cap: the counter advances, the target
range bin is latched, and every decision-relevant scalar survives. -/
theorem stageData_scalars (st : VsState) (inp : FrameIn) (cube : ℕ → ℤ × ℤ)
    (hc : st.vsDataCount < VS_TOTAL_FRAME) :
    (vsStageData st inp cube).vsDataCount = st.vsDataCount + 1 ∧
    (vsStageData st inp cube).vsLoop = st.vsLoop ∧
    (vsStageData st inp cube).prevHeartPeak0 = st.prevHeartPeak0 ∧
    (vsStageData st inp cube).prevHeartPeak1 = st.prevHeartPeak1 ∧
    (vsStageData st inp cube).prevHeartPeak2 = st.prevHeartPeak2 ∧
    (vsStageData st inp cube).prevHeartPeak3 = st.prevHeartPeak3 ∧
    (vsStageData st inp cube).indicateNoTarget = st.indicateNoTarget ∧
    (vsStageData st inp cube).inited = st.inited ∧
    (vsStageData st inp cube).cfgEnabled = st.cfgEnabled ∧
    (vsStageData st inp cube).output = st.output ∧
    (vsStageData st inp cube).vsRangeBin = inp.targetRangeBin := by
  unfold vsStageData
  dsimp only
  rw [if_pos hc]
  exact ⟨rfl, rfl, rfl, rfl, rfl, rfl, rfl, rfl, rfl, rfl, rfl⟩

theorem stageWrap_id (st : VsState) (hc : st.vsDataCount < VS_TOTAL_FRAME) :
    vsStageWrap st = st := by
  unfold vsStageWrap
  rw [if_neg (by omega)]

theorem stageWrap_zero (st : VsState) (hc : VS_TOTAL_FRAME ≤ st.vsDataCount) :
    vsStageWrap st = { st with vsDataCount := 0 } := by
  unfold vsStageWrap
  rw [if_pos hc]

theorem stageCompute_skip (st : VsState) (inp : FrameIn)
    (hm : ¬ st.vsDataCount % VS_REFRESH_RATE = 0) :
    vsStageCompute st inp = st := by
  unfold vsStageCompute
  rw [if_neg hm]

theorem stageCompute_fire (st : VsState) (inp : FrameIn)
    (hm : st.vsDataCount % VS_REFRESH_RATE = 0) :
    vsStageCompute st inp =
      { vsComputeVitalSign st inp.compute with
        vsLoop := (vsComputeVitalSign st inp.compute).vsLoop + 1 } := by
  unfold vsStageCompute
  rw [if_pos hm]

/-- A frame that neither wraps the counter nor hits the refresh cadence
advances only the counter (and latches geometry). -/
theorem frame_quiet (cin : ComputeIn) (st : VsState)
    (hI : st.inited = true) (hE : st.cfgEnabled = true)
    (hc : st.vsDataCount < 128) (hm : (st.vsDataCount + 1) % 32 ≠ 0) :
    (vsProcessFrame st (mkFrame cin)).2.vsDataCount = st.vsDataCount + 1 ∧
    (vsProcessFrame st (mkFrame cin)).2.vsLoop = st.vsLoop ∧
    (vsProcessFrame st (mkFrame cin)).2.prevHeartPeak0 = st.prevHeartPeak0 ∧
    (vsProcessFrame st (mkFrame cin)).2.prevHeartPeak1 = st.prevHeartPeak1 ∧
    (vsProcessFrame st (mkFrame cin)).2.prevHeartPeak2 = st.prevHeartPeak2 ∧
    (vsProcessFrame st (mkFrame cin)).2.prevHeartPeak3 = st.prevHeartPeak3 ∧
    (vsProcessFrame st (mkFrame cin)).2.indicateNoTarget =
      st.indicateNoTarget ∧
    (vsProcessFrame st (mkFrame cin)).2.inited = true ∧
    (vsProcessFrame st (mkFrame cin)).2.cfgEnabled = true ∧
    (vsProcessFrame st (mkFrame cin)).2.output = st.output := by
  rw [frame_body_of st cin hI hE]
  unfold vsFrameBody
  have h1 := stageData_scalars st (mkFrame cin) zeroCube hc
  obtain ⟨sD, hsD⟩ : ∃ x, vsStageData st (mkFrame cin) zeroCube = x :=
    ⟨_, rfl⟩
  rw [hsD] at h1 ⊢
  have hlt : sD.vsDataCount < VS_TOTAL_FRAME := by
    rw [h1.1]
    show st.vsDataCount + 1 < 128
    omega
  rw [stageWrap_id sD hlt]
  rw [stageCompute_skip sD (mkFrame cin) (by rw [h1.1]; exact hm)]
  exact ⟨h1.1, h1.2.1, h1.2.2.1, h1.2.2.2.1, h1.2.2.2.2.1,
    h1.2.2.2.2.2.1, h1.2.2.2.2.2.2.1, h1.2.2.2.2.2.2.2.1.trans hI,
    h1.2.2.2.2.2.2.2.2.1.trans hE, h1.2.2.2.2.2.2.2.2.2.1⟩

/-- A run of frames that stays inside one refresh period only advances
the counter. -/
theorem run_quietN (cin : ComputeIn) : ∀ (j : ℕ) (st : VsState),
    st.inited = true → st.cfgEnabled = true →
    st.vsDataCount < 128 → st.vsDataCount % 32 + j ≤ 31 →
    (vsRun st (List.replicate j (VsEvent.frame (mkFrame cin)))).vsDataCount =
      st.vsDataCount + j ∧
    (vsRun st (List.replicate j (VsEvent.frame (mkFrame cin)))).vsLoop =
      st.vsLoop ∧
    (vsRun st (List.replicate j (VsEvent.frame (mkFrame cin)))).prevHeartPeak0 =
      st.prevHeartPeak0 ∧
    (vsRun st (List.replicate j (VsEvent.frame (mkFrame cin)))).prevHeartPeak1 =
      st.prevHeartPeak1 ∧
    (vsRun st (List.replicate j (VsEvent.frame (mkFrame cin)))).prevHeartPeak2 =
      st.prevHeartPeak2 ∧
    (vsRun st (List.replicate j (VsEvent.frame (mkFrame cin)))).prevHeartPeak3 =
      st.prevHeartPeak3 ∧
    (vsRun st (List.replicate j (VsEvent.frame (mkFrame cin)))).indicateNoTarget =
      st.indicateNoTarget ∧
    (vsRun st (List.replicate j (VsEvent.frame (mkFrame cin)))).inited = true ∧
    (vsRun st (List.replicate j (VsEvent.frame (mkFrame cin)))).cfgEnabled =
      true ∧
    (vsRun st (List.replicate j (VsEvent.frame (mkFrame cin)))).output =
      st.output := by
  intro j
  induction j with
  | zero =>
    intro st hI hE hc hj
    exact ⟨rfl, rfl, rfl, rfl, rfl, rfl, rfl, hI, hE, rfl⟩
  | succ m ih =>
    intro st hI hE hc hj
    have hmod : (st.vsDataCount + 1) % 32 ≠ 0 := by omega
    have hq := frame_quiet cin st hI hE hc hmod
    have estep : vsRun st (List.replicate (m + 1)
        (VsEvent.frame (mkFrame cin))) =
        vsRun (vsProcessFrame st (mkFrame cin)).2
          (List.replicate m (VsEvent.frame (mkFrame cin))) := rfl
    rw [estep]
    have hih := ih (vsProcessFrame st (mkFrame cin)).2
      hq.2.2.2.2.2.2.2.1 hq.2.2.2.2.2.2.2.2.1
      (by rw [hq.1]; omega) (by rw [hq.1]; omega)
    refine ⟨?_, ?_, ?_, ?_, ?_, ?_, ?_, hih.2.2.2.2.2.2.2.1,
      hih.2.2.2.2.2.2.2.2.1, ?_⟩
    · rw [hih.1, hq.1]
      omega
    · rw [hih.2.1, hq.2.1]
    · rw [hih.2.2.1, hq.2.2.1]
    · rw [hih.2.2.2.1, hq.2.2.2.1]
    · rw [hih.2.2.2.2.1, hq.2.2.2.2.1]
    · rw [hih.2.2.2.2.2.1, hq.2.2.2.2.2.1]
    · rw [hih.2.2.2.2.2.2.1, hq.2.2.2.2.2.2.1]
    · rw [hih.2.2.2.2.2.2.2.2.2, hq.2.2.2.2.2.2.2.2.2]

theorem assemble_heart_valid (s : VsState) (b h : ℕ) (d : Rq) :
    (vsAssembleOutput s b h d).heartRate =
      (if s.indicateNoTarget = true then Rq.zero
       else if s.vsLoop < VS_MASK_LOOP_NO then Rq.zero
       else Rq.mul (Rq.ofNat h) kBpm) ∧
    (vsAssembleOutput s b h d).valid =
      (if s.indicateNoTarget = true then 0
       else if VS_MASK_LOOP_NO ≤ s.vsLoop then 1 else 0) := by
  unfold vsAssembleOutput
  by_cases hf : s.indicateNoTarget = true
  · rw [if_pos hf, if_pos hf, if_pos hf]
    exact ⟨rfl, rfl⟩
  · rw [if_neg hf, if_neg hf, if_neg hf]
    exact ⟨rfl, rfl⟩

/-- A tone frame on the refresh cadence: the decision runs with the tone
votes; the cycle counter advances and the history shifts through the
jump limiter. -/
theorem frame_fire_tone (st : VsState)
    (hI : st.inited = true) (hE : st.cfgEnabled = true)
    (hc : st.vsDataCount < 128)
    (hm : (if st.vsDataCount + 1 = 128 then 0 else st.vsDataCount + 1) %
      32 = 0) :
    (vsProcessFrame st (mkFrame toneComputeIn)).2.vsDataCount =
      (if st.vsDataCount + 1 = 128 then 0 else st.vsDataCount + 1) ∧
    (vsProcessFrame st (mkFrame toneComputeIn)).2.vsLoop = st.vsLoop + 1 ∧
    (vsProcessFrame st (mkFrame toneComputeIn)).2.prevHeartPeak0 =
      (vsHistoryUpdate st.vsLoop
        (vsJumpLimit (vsCandidate [69, 69, 69, 69, 69] st.prevHeartPeak3 68)
          st.prevHeartPeak0 st.vsLoop)
        st.prevHeartPeak0 st.prevHeartPeak1 st.prevHeartPeak2
        st.prevHeartPeak3).1 ∧
    (vsProcessFrame st (mkFrame toneComputeIn)).2.prevHeartPeak1 =
      (vsHistoryUpdate st.vsLoop
        (vsJumpLimit (vsCandidate [69, 69, 69, 69, 69] st.prevHeartPeak3 68)
          st.prevHeartPeak0 st.vsLoop)
        st.prevHeartPeak0 st.prevHeartPeak1 st.prevHeartPeak2
        st.prevHeartPeak3).2.1 ∧
    (vsProcessFrame st (mkFrame toneComputeIn)).2.prevHeartPeak2 =
      (vsHistoryUpdate st.vsLoop
        (vsJumpLimit (vsCandidate [69, 69, 69, 69, 69] st.prevHeartPeak3 68)
          st.prevHeartPeak0 st.vsLoop)
        st.prevHeartPeak0 st.prevHeartPeak1 st.prevHeartPeak2
        st.prevHeartPeak3).2.2.1 ∧
    (vsProcessFrame st (mkFrame toneComputeIn)).2.prevHeartPeak3 =
      (vsHistoryUpdate st.vsLoop
        (vsJumpLimit (vsCandidate [69, 69, 69, 69, 69] st.prevHeartPeak3 68)
          st.prevHeartPeak0 st.vsLoop)
        st.prevHeartPeak0 st.prevHeartPeak1 st.prevHeartPeak2
        st.prevHeartPeak3).2.2.2 ∧
    (vsProcessFrame st (mkFrame toneComputeIn)).2.indicateNoTarget =
      st.indicateNoTarget ∧
    (vsProcessFrame st (mkFrame toneComputeIn)).2.inited = true ∧
    (vsProcessFrame st (mkFrame toneComputeIn)).2.cfgEnabled = true := by
  rw [frame_body_of st toneComputeIn hI hE]
  unfold vsFrameBody
  have h1 := stageData_scalars st (mkFrame toneComputeIn) zeroCube hc
  obtain ⟨sD, hsD⟩ : ∃ x, vsStageData st (mkFrame toneComputeIn) zeroCube = x :=
    ⟨_, rfl⟩
  rw [hsD] at h1 ⊢
  have hcompute : (mkFrame toneComputeIn).compute = toneComputeIn := rfl
  by_cases hw : st.vsDataCount + 1 = 128
  · rw [stageWrap_zero sD (by rw [h1.1, hw]; exact Nat.le_refl 128)]
    rw [stageCompute_fire ({ sD with vsDataCount := 0 })
      (mkFrame toneComputeIn) rfl]
    rw [hcompute, compute_tone]
    dsimp only
    rw [if_pos hw]
    refine ⟨rfl, ?_, ?_, ?_, ?_, ?_, h1.2.2.2.2.2.2.1,
      h1.2.2.2.2.2.2.2.1.trans hI, h1.2.2.2.2.2.2.2.2.1.trans hE⟩ <;>
      simp only [h1.2.1, h1.2.2.1, h1.2.2.2.1, h1.2.2.2.2.1, h1.2.2.2.2.2.1]
  · have hlt : sD.vsDataCount < VS_TOTAL_FRAME := by
      rw [h1.1]
      show st.vsDataCount + 1 < 128
      omega
    rw [stageWrap_id sD hlt]
    have hfire : sD.vsDataCount % VS_REFRESH_RATE = 0 := by
      rw [h1.1]
      rw [if_neg hw] at hm
      exact hm
    rw [stageCompute_fire sD (mkFrame toneComputeIn) hfire]
    rw [hcompute, compute_tone]
    dsimp only
    rw [if_neg hw]
    refine ⟨h1.1, ?_, ?_, ?_, ?_, ?_, h1.2.2.2.2.2.2.1,
      h1.2.2.2.2.2.2.2.1.trans hI, h1.2.2.2.2.2.2.2.2.1.trans hE⟩ <;>
      simp only [h1.2.1, h1.2.2.1, h1.2.2.2.1, h1.2.2.2.2.1, h1.2.2.2.2.2.1]

/-- A silence frame on the refresh cadence: the decision runs with zero
votes and publishes the jump-limited zero candidate. -/
theorem frame_fire_zero (st : VsState)
    (hI : st.inited = true) (hE : st.cfgEnabled = true)
    (hc : st.vsDataCount < 128)
    (hm : (if st.vsDataCount + 1 = 128 then 0 else st.vsDataCount + 1) %
      32 = 0) :
    (vsProcessFrame st (mkFrame zeroComputeIn)).2.vsLoop = st.vsLoop + 1 ∧
    (vsProcessFrame st (mkFrame zeroComputeIn)).2.output.heartRate =
      (if st.indicateNoTarget = true then Rq.zero
       else if st.vsLoop < VS_MASK_LOOP_NO then Rq.zero
       else Rq.mul (Rq.ofNat
         (vsJumpLimit (vsCandidate [0, 0, 0, 0, 0] st.prevHeartPeak3 0)
           st.prevHeartPeak0 st.vsLoop)) kBpm) ∧
    (vsProcessFrame st (mkFrame zeroComputeIn)).2.output.valid =
      (if st.indicateNoTarget = true then 0
       else if VS_MASK_LOOP_NO ≤ st.vsLoop then 1 else 0) := by
  rw [frame_body_of st zeroComputeIn hI hE]
  unfold vsFrameBody
  have h1 := stageData_scalars st (mkFrame zeroComputeIn) zeroCube hc
  obtain ⟨sD, hsD⟩ : ∃ x, vsStageData st (mkFrame zeroComputeIn) zeroCube = x :=
    ⟨_, rfl⟩
  rw [hsD] at h1 ⊢
  have hcompute : (mkFrame zeroComputeIn).compute = zeroComputeIn := rfl
  by_cases hw : st.vsDataCount + 1 = 128
  · rw [stageWrap_zero sD (by rw [h1.1, hw]; exact Nat.le_refl 128)]
    rw [stageCompute_fire ({ sD with vsDataCount := 0 })
      (mkFrame zeroComputeIn) rfl]
    rw [hcompute, compute_zero]
    dsimp only
    refine ⟨?_, ?_, ?_⟩
    · simp only [h1.2.1]
    · rw [(assemble_heart_valid _ _ _ _).1]
      simp only [h1.2.1, h1.2.2.2.2.2.1, h1.2.2.1, h1.2.2.2.2.2.2.1]
    · rw [(assemble_heart_valid _ _ _ _).2]
      simp only [h1.2.1, h1.2.2.2.2.2.2.1]
  · have hlt : sD.vsDataCount < VS_TOTAL_FRAME := by
      rw [h1.1]
      show st.vsDataCount + 1 < 128
      omega
    rw [stageWrap_id sD hlt]
    have hfire : sD.vsDataCount % VS_REFRESH_RATE = 0 := by
      rw [h1.1]
      rw [if_neg hw] at hm
      exact hm
    rw [stageCompute_fire sD (mkFrame zeroComputeIn) hfire]
    rw [hcompute, compute_zero]
    dsimp only
    refine ⟨?_, ?_, ?_⟩
    · simp only [h1.2.1]
    · rw [(assemble_heart_valid _ _ _ _).1]
      simp only [h1.2.1, h1.2.2.2.2.2.1, h1.2.2.1, h1.2.2.2.2.2.2.1]
    · rw [(assemble_heart_valid _ _ _ _).2]
      simp only [h1.2.1, h1.2.2.2.2.2.2.1]

theorem vsRun_append (st : VsState) (a b : List VsEvent) :
    vsRun st (a ++ b) = vsRun (vsRun st a) b := by
  unfold vsRun
  rw [List.foldl_append]

/-- One full refresh period of the steady tone, starting period-aligned:
31 silent frames then the decision frame. -/
theorem block_tone (st : VsState) (cnt lp p0 p1 p2 p3 : ℕ)
    (h : st.vsDataCount = cnt ∧ st.vsLoop = lp ∧ st.prevHeartPeak0 = p0 ∧
      st.prevHeartPeak1 = p1 ∧ st.prevHeartPeak2 = p2 ∧
      st.prevHeartPeak3 = p3 ∧ st.indicateNoTarget = false ∧
      st.inited = true ∧ st.cfgEnabled = true)
    (hcnt : cnt % 32 = 0) (hlt : cnt < 128) :
    (vsRun st (List.replicate 32
        (VsEvent.frame (mkFrame toneComputeIn)))).vsDataCount =
      (if cnt + 32 = 128 then 0 else cnt + 32) ∧
    (vsRun st (List.replicate 32
        (VsEvent.frame (mkFrame toneComputeIn)))).vsLoop = lp + 1 ∧
    (vsRun st (List.replicate 32
        (VsEvent.frame (mkFrame toneComputeIn)))).prevHeartPeak0 =
      (vsHistoryUpdate lp
        (vsJumpLimit (vsCandidate [69, 69, 69, 69, 69] p3 68) p0 lp)
        p0 p1 p2 p3).1 ∧
    (vsRun st (List.replicate 32
        (VsEvent.frame (mkFrame toneComputeIn)))).prevHeartPeak1 =
      (vsHistoryUpdate lp
        (vsJumpLimit (vsCandidate [69, 69, 69, 69, 69] p3 68) p0 lp)
        p0 p1 p2 p3).2.1 ∧
    (vsRun st (List.replicate 32
        (VsEvent.frame (mkFrame toneComputeIn)))).prevHeartPeak2 =
      (vsHistoryUpdate lp
        (vsJumpLimit (vsCandidate [69, 69, 69, 69, 69] p3 68) p0 lp)
        p0 p1 p2 p3).2.2.1 ∧
    (vsRun st (List.replicate 32
        (VsEvent.frame (mkFrame toneComputeIn)))).prevHeartPeak3 =
      (vsHistoryUpdate lp
        (vsJumpLimit (vsCandidate [69, 69, 69, 69, 69] p3 68) p0 lp)
        p0 p1 p2 p3).2.2.2 ∧
    (vsRun st (List.replicate 32
        (VsEvent.frame (mkFrame toneComputeIn)))).indicateNoTarget = false ∧
    (vsRun st (List.replicate 32
        (VsEvent.frame (mkFrame toneComputeIn)))).inited = true ∧
    (vsRun st (List.replicate 32
        (VsEvent.frame (mkFrame toneComputeIn)))).cfgEnabled = true := by
  obtain ⟨e1, e2, e3, e4, e5, e6, e7, e8, e9⟩ := h
  have hq := run_quietN toneComputeIn 31 st e8 e9 (by omega) (by omega)
  obtain ⟨S31, hS31⟩ : ∃ x,
      vsRun st (List.replicate 31 (VsEvent.frame (mkFrame toneComputeIn))) = x :=
    ⟨_, rfl⟩
  rw [hS31] at hq
  have hrw : vsRun st (List.replicate 32
      (VsEvent.frame (mkFrame toneComputeIn))) =
      (vsProcessFrame S31 (mkFrame toneComputeIn)).2 := by
    rw [show (32 : ℕ) = 31 + 1 from rfl, List.replicate_add, vsRun_append,
      hS31]
    rfl
  have hf := frame_fire_tone S31 hq.2.2.2.2.2.2.2.1 hq.2.2.2.2.2.2.2.2.1
    (by rw [hq.1]; omega)
    (by rw [hq.1, e1]; split_ifs <;> omega)
  rw [hrw]
  refine ⟨?_, ?_, ?_, ?_, ?_, ?_, ?_, hf.2.2.2.2.2.2.2.1,
    hf.2.2.2.2.2.2.2.2⟩
  · rw [hf.1, hq.1, e1]
  · rw [hf.2.1, hq.2.1, e2]
  · rw [hf.2.2.1, hq.2.1, hq.2.2.1, hq.2.2.2.1, hq.2.2.2.2.1,
      hq.2.2.2.2.2.1, e2, e3, e4, e5, e6]
  · rw [hf.2.2.2.1, hq.2.1, hq.2.2.1, hq.2.2.2.1, hq.2.2.2.2.1,
      hq.2.2.2.2.2.1, e2, e3, e4, e5, e6]
  · rw [hf.2.2.2.2.1, hq.2.1, hq.2.2.1, hq.2.2.2.1, hq.2.2.2.2.1,
      hq.2.2.2.2.2.1, e2, e3, e4, e5, e6]
  · rw [hf.2.2.2.2.2.1, hq.2.1, hq.2.2.1, hq.2.2.2.1, hq.2.2.2.2.1,
      hq.2.2.2.2.2.1, e2, e3, e4, e5, e6]
  · rw [hf.2.2.2.2.2.2.1, hq.2.2.2.2.2.2.1, e7]

/-- One full refresh period of silence, starting period-aligned. -/
theorem block_zero (st : VsState) (cnt lp p0 p1 p2 p3 : ℕ)
    (h : st.vsDataCount = cnt ∧ st.vsLoop = lp ∧ st.prevHeartPeak0 = p0 ∧
      st.prevHeartPeak1 = p1 ∧ st.prevHeartPeak2 = p2 ∧
      st.prevHeartPeak3 = p3 ∧ st.indicateNoTarget = false ∧
      st.inited = true ∧ st.cfgEnabled = true)
    (hcnt : cnt % 32 = 0) (hlt : cnt < 128) :
    (vsRun st (List.replicate 32
        (VsEvent.frame (mkFrame zeroComputeIn)))).output.heartRate =
      (if lp < VS_MASK_LOOP_NO then Rq.zero
       else Rq.mul (Rq.ofNat
         (vsJumpLimit (vsCandidate [0, 0, 0, 0, 0] p3 0) p0 lp)) kBpm) ∧
    (vsRun st (List.replicate 32
        (VsEvent.frame (mkFrame zeroComputeIn)))).output.valid =
      (if VS_MASK_LOOP_NO ≤ lp then 1 else 0) := by
  obtain ⟨e1, e2, e3, e4, e5, e6, e7, e8, e9⟩ := h
  have hq := run_quietN zeroComputeIn 31 st e8 e9 (by omega) (by omega)
  obtain ⟨S31, hS31⟩ : ∃ x,
      vsRun st (List.replicate 31 (VsEvent.frame (mkFrame zeroComputeIn))) = x :=
    ⟨_, rfl⟩
  rw [hS31] at hq
  have hrw : vsRun st (List.replicate 32
      (VsEvent.frame (mkFrame zeroComputeIn))) =
      (vsProcessFrame S31 (mkFrame zeroComputeIn)).2 := by
    rw [show (32 : ℕ) = 31 + 1 from rfl, List.replicate_add, vsRun_append,
      hS31]
    rfl
  have hf := frame_fire_zero S31 hq.2.2.2.2.2.2.2.1 hq.2.2.2.2.2.2.2.2.1
    (by rw [hq.1]; omega)
    (by rw [hq.1, e1]; split_ifs <;> omega)
  rw [hrw]
  constructor
  · rw [hf.2.1, hq.2.2.2.2.2.2.1, hq.2.1, hq.2.2.1, hq.2.2.2.2.2.1,
      e7, e2, e3, e6]
    rw [if_neg (by simp)]
  · rw [hf.2.2, hq.2.2.2.2.2.2.1, hq.2.1, e7, e2]
    rw [if_neg (by simp)]

theorem vsRun_replicate_split (st : VsState) (ev : VsEvent) (a b : ℕ) :
    vsRun st (List.replicate (a + b) ev) =
      vsRun (vsRun st (List.replicate a ev)) (List.replicate b ev) := by
  rw [List.replicate_add, vsRun_append]

/-- C4: AMENDED counterexample. After 256 frames of a steady spectrum with
peaks at bins 70 and 140 (eight refresh periods, filling the heart history
with 68) followed by one refresh period of a silent spectrum, the output is
valid yet the heart rate equals 56 * (441/500) bpm, and 56 is neither 0 nor
a bin index in [68, 128): the jump limiter emits prev0 - 12, which is not of
the advertised form. -/
theorem claim_C4_counterexample :
    (vsRun (vsInitState true) c4Events).output.valid = 1 ∧
    Rq.val (vsRun (vsInitState true) c4Events).output.heartRate =
      56 * (441 / 500) ∧
    ∀ h : ℕ, (h = 0 ∨ (68 ≤ h ∧ h < 128)) →
      (h : ℚ) * (441 / 500) ≠ 56 * (441 / 500) := by
  have hsplit : vsRun (vsInitState true) c4Events =
      vsRun (vsRun (vsRun (vsRun (vsRun (vsRun (vsRun (vsRun (vsRun
        (vsInitState true)
        (List.replicate 32 (VsEvent.frame (mkFrame toneComputeIn))))
        (List.replicate 32 (VsEvent.frame (mkFrame toneComputeIn))))
        (List.replicate 32 (VsEvent.frame (mkFrame toneComputeIn))))
        (List.replicate 32 (VsEvent.frame (mkFrame toneComputeIn))))
        (List.replicate 32 (VsEvent.frame (mkFrame toneComputeIn))))
        (List.replicate 32 (VsEvent.frame (mkFrame toneComputeIn))))
        (List.replicate 32 (VsEvent.frame (mkFrame toneComputeIn))))
        (List.replicate 32 (VsEvent.frame (mkFrame toneComputeIn))))
        (List.replicate 32 (VsEvent.frame (mkFrame zeroComputeIn))) := by
    rw [show c4Events =
        List.replicate 256 (VsEvent.frame (mkFrame toneComputeIn)) ++
        List.replicate 32 (VsEvent.frame (mkFrame zeroComputeIn)) from rfl,
      vsRun_append,
      show (256 : ℕ) = 32 + 224 from rfl, vsRun_replicate_split,
      show (224 : ℕ) = 32 + 192 from rfl, vsRun_replicate_split,
      show (192 : ℕ) = 32 + 160 from rfl, vsRun_replicate_split,
      show (160 : ℕ) = 32 + 128 from rfl, vsRun_replicate_split,
      show (128 : ℕ) = 32 + 96 from rfl, vsRun_replicate_split,
      show (96 : ℕ) = 32 + 64 from rfl, vsRun_replicate_split,
      show (64 : ℕ) = 32 + 32 from rfl, vsRun_replicate_split]
  obtain ⟨S1, hS1⟩ : ∃ x, vsRun (vsInitState true)
      (List.replicate 32 (VsEvent.frame (mkFrame toneComputeIn))) = x :=
    ⟨_, rfl⟩
  have hb1 := block_tone (vsInitState true) 0 0 0 0 0 0
    ⟨rfl, rfl, rfl, rfl, rfl, rfl, rfl, rfl, rfl⟩ (by decide) (by norm_num)
  rw [hS1] at hb1
  have g1 : S1.vsDataCount = 32 ∧ S1.vsLoop = 1 ∧ S1.prevHeartPeak0 = 0 ∧
      S1.prevHeartPeak1 = 0 ∧ S1.prevHeartPeak2 = 0 ∧
      S1.prevHeartPeak3 = 0 ∧ S1.indicateNoTarget = false ∧
      S1.inited = true ∧ S1.cfgEnabled = true :=
    ⟨by rw [hb1.1]; decide, by rw [hb1.2.1], by rw [hb1.2.2.1]; decide,
     by rw [hb1.2.2.2.1]; decide, by rw [hb1.2.2.2.2.1]; decide,
     by rw [hb1.2.2.2.2.2.1]; decide, hb1.2.2.2.2.2.2.1,
     hb1.2.2.2.2.2.2.2.1, hb1.2.2.2.2.2.2.2.2⟩
  obtain ⟨S2, hS2⟩ : ∃ x, vsRun S1
      (List.replicate 32 (VsEvent.frame (mkFrame toneComputeIn))) = x :=
    ⟨_, rfl⟩
  have hb2 := block_tone S1 32 1 0 0 0 0 g1 (by decide) (by norm_num)
  rw [hS2] at hb2
  have g2 : S2.vsDataCount = 64 ∧ S2.vsLoop = 2 ∧ S2.prevHeartPeak0 = 0 ∧
      S2.prevHeartPeak1 = 0 ∧ S2.prevHeartPeak2 = 0 ∧
      S2.prevHeartPeak3 = 0 ∧ S2.indicateNoTarget = false ∧
      S2.inited = true ∧ S2.cfgEnabled = true :=
    ⟨by rw [hb2.1]; decide, by rw [hb2.2.1], by rw [hb2.2.2.1]; decide,
     by rw [hb2.2.2.2.1]; decide, by rw [hb2.2.2.2.2.1]; decide,
     by rw [hb2.2.2.2.2.2.1]; decide, hb2.2.2.2.2.2.2.1,
     hb2.2.2.2.2.2.2.2.1, hb2.2.2.2.2.2.2.2.2⟩
  obtain ⟨S3, hS3⟩ : ∃ x, vsRun S2
      (List.replicate 32 (VsEvent.frame (mkFrame toneComputeIn))) = x :=
    ⟨_, rfl⟩
  have hb3 := block_tone S2 64 2 0 0 0 0 g2 (by decide) (by norm_num)
  rw [hS3] at hb3
  have g3 : S3.vsDataCount = 96 ∧ S3.vsLoop = 3 ∧ S3.prevHeartPeak0 = 0 ∧
      S3.prevHeartPeak1 = 0 ∧ S3.prevHeartPeak2 = 0 ∧
      S3.prevHeartPeak3 = 0 ∧ S3.indicateNoTarget = false ∧
      S3.inited = true ∧ S3.cfgEnabled = true :=
    ⟨by rw [hb3.1]; decide, by rw [hb3.2.1], by rw [hb3.2.2.1]; decide,
     by rw [hb3.2.2.2.1]; decide, by rw [hb3.2.2.2.2.1]; decide,
     by rw [hb3.2.2.2.2.2.1]; decide, hb3.2.2.2.2.2.2.1,
     hb3.2.2.2.2.2.2.2.1, hb3.2.2.2.2.2.2.2.2⟩
  obtain ⟨S4, hS4⟩ : ∃ x, vsRun S3
      (List.replicate 32 (VsEvent.frame (mkFrame toneComputeIn))) = x :=
    ⟨_, rfl⟩
  have hb4 := block_tone S3 96 3 0 0 0 0 g3 (by decide) (by norm_num)
  rw [hS4] at hb4
  have g4 : S4.vsDataCount = 0 ∧ S4.vsLoop = 4 ∧ S4.prevHeartPeak0 = 0 ∧
      S4.prevHeartPeak1 = 0 ∧ S4.prevHeartPeak2 = 0 ∧
      S4.prevHeartPeak3 = 0 ∧ S4.indicateNoTarget = false ∧
      S4.inited = true ∧ S4.cfgEnabled = true :=
    ⟨by rw [hb4.1]; decide, by rw [hb4.2.1], by rw [hb4.2.2.1]; decide,
     by rw [hb4.2.2.2.1]; decide, by rw [hb4.2.2.2.2.1]; decide,
     by rw [hb4.2.2.2.2.2.1]; decide, hb4.2.2.2.2.2.2.1,
     hb4.2.2.2.2.2.2.2.1, hb4.2.2.2.2.2.2.2.2⟩
  obtain ⟨S5, hS5⟩ : ∃ x, vsRun S4
      (List.replicate 32 (VsEvent.frame (mkFrame toneComputeIn))) = x :=
    ⟨_, rfl⟩
  have hb5 := block_tone S4 0 4 0 0 0 0 g4 (by decide) (by norm_num)
  rw [hS5] at hb5
  have g5 : S5.vsDataCount = 32 ∧ S5.vsLoop = 5 ∧ S5.prevHeartPeak0 = 0 ∧
      S5.prevHeartPeak1 = 0 ∧ S5.prevHeartPeak2 = 0 ∧
      S5.prevHeartPeak3 = 0 ∧ S5.indicateNoTarget = false ∧
      S5.inited = true ∧ S5.cfgEnabled = true :=
    ⟨by rw [hb5.1]; decide, by rw [hb5.2.1], by rw [hb5.2.2.1]; decide,
     by rw [hb5.2.2.2.1]; decide, by rw [hb5.2.2.2.2.1]; decide,
     by rw [hb5.2.2.2.2.2.1]; decide, hb5.2.2.2.2.2.2.1,
     hb5.2.2.2.2.2.2.2.1, hb5.2.2.2.2.2.2.2.2⟩
  obtain ⟨S6, hS6⟩ : ∃ x, vsRun S5
      (List.replicate 32 (VsEvent.frame (mkFrame toneComputeIn))) = x :=
    ⟨_, rfl⟩
  have hb6 := block_tone S5 32 5 0 0 0 0 g5 (by decide) (by norm_num)
  rw [hS6] at hb6
  have g6 : S6.vsDataCount = 64 ∧ S6.vsLoop = 6 ∧ S6.prevHeartPeak0 = 68 ∧
      S6.prevHeartPeak1 = 0 ∧ S6.prevHeartPeak2 = 0 ∧
      S6.prevHeartPeak3 = 0 ∧ S6.indicateNoTarget = false ∧
      S6.inited = true ∧ S6.cfgEnabled = true :=
    ⟨by rw [hb6.1]; decide, by rw [hb6.2.1], by rw [hb6.2.2.1]; decide,
     by rw [hb6.2.2.2.1]; decide, by rw [hb6.2.2.2.2.1]; decide,
     by rw [hb6.2.2.2.2.2.1]; decide, hb6.2.2.2.2.2.2.1,
     hb6.2.2.2.2.2.2.2.1, hb6.2.2.2.2.2.2.2.2⟩
  obtain ⟨S7, hS7⟩ : ∃ x, vsRun S6
      (List.replicate 32 (VsEvent.frame (mkFrame toneComputeIn))) = x :=
    ⟨_, rfl⟩
  have hb7 := block_tone S6 64 6 68 0 0 0 g6 (by decide) (by norm_num)
  rw [hS7] at hb7
  have g7 : S7.vsDataCount = 96 ∧ S7.vsLoop = 7 ∧ S7.prevHeartPeak0 = 68 ∧
      S7.prevHeartPeak1 = 68 ∧ S7.prevHeartPeak2 = 0 ∧
      S7.prevHeartPeak3 = 0 ∧ S7.indicateNoTarget = false ∧
      S7.inited = true ∧ S7.cfgEnabled = true :=
    ⟨by rw [hb7.1]; decide, by rw [hb7.2.1], by rw [hb7.2.2.1]; decide,
     by rw [hb7.2.2.2.1]; decide, by rw [hb7.2.2.2.2.1]; decide,
     by rw [hb7.2.2.2.2.2.1]; decide, hb7.2.2.2.2.2.2.1,
     hb7.2.2.2.2.2.2.2.1, hb7.2.2.2.2.2.2.2.2⟩
  obtain ⟨S8, hS8⟩ : ∃ x, vsRun S7
      (List.replicate 32 (VsEvent.frame (mkFrame toneComputeIn))) = x :=
    ⟨_, rfl⟩
  have hb8 := block_tone S7 96 7 68 68 0 0 g7 (by decide) (by norm_num)
  rw [hS8] at hb8
  have g8 : S8.vsDataCount = 0 ∧ S8.vsLoop = 8 ∧ S8.prevHeartPeak0 = 68 ∧
      S8.prevHeartPeak1 = 68 ∧ S8.prevHeartPeak2 = 68 ∧
      S8.prevHeartPeak3 = 0 ∧ S8.indicateNoTarget = false ∧
      S8.inited = true ∧ S8.cfgEnabled = true :=
    ⟨by rw [hb8.1]; decide, by rw [hb8.2.1], by rw [hb8.2.2.1]; decide,
     by rw [hb8.2.2.2.1]; decide, by rw [hb8.2.2.2.2.1]; decide,
     by rw [hb8.2.2.2.2.2.1]; decide, hb8.2.2.2.2.2.2.1,
     hb8.2.2.2.2.2.2.2.1, hb8.2.2.2.2.2.2.2.2⟩
  obtain ⟨S9, hS9⟩ : ∃ x, vsRun S8
      (List.replicate 32 (VsEvent.frame (mkFrame zeroComputeIn))) = x :=
    ⟨_, rfl⟩
  have hb9 := block_zero S8 0 8 68 68 68 0 g8 (by decide) (by norm_num)
  rw [hS9] at hb9
  have hjl : vsJumpLimit (vsCandidate [0, 0, 0, 0, 0] 0 0) 68 8 = 56 := by
    decide
  have hhr : S9.output.heartRate = Rq.mul (Rq.ofNat 56) kBpm := by
    rw [hb9.1, if_neg (by decide), hjl]
  have hvd : S9.output.valid = 1 := by
    rw [hb9.2, if_pos (by decide)]
  have hall : vsRun (vsInitState true) c4Events = S9 := by
    rw [hsplit, hS1, hS2, hS3, hS4, hS5, hS6, hS7, hS8, hS9]
  refine ⟨?_, ?_, ?_⟩
  · rw [hall]
    exact hvd
  · rw [hall, hhr, Rq.val_mul, Rq.val_ofNat, kBpm_val]
    norm_num
  · intro h hh heq
    have hne : (441 / 500 : ℚ) ≠ 0 := by norm_num
    have h56 : (h : ℚ) = 56 := mul_right_cancel₀ hne heq
    have h56n : h = 56 := by exact_mod_cast h56
    omega
